import Mathlib

/-!
Verification of the duty-cycle scheduling engine of the Atlas repository
(`backend/api/utils.py`).

The Python code is embedded shallowly:

* floats become exact rationals (`ℚ`);
* the mutable counters captured by the inner closures (`current_time`,
  `cycle_used`, `drive_clock`, `window_clock`, `since_break_clock`,
  `miles_since_fuel`, together with the `logs` and `stops` accumulators)
  become one explicit `SimState` record threaded through the functions;
* the two network collaborators (`geocode`, `get_osrm_route`) become
  function parameters of `calculate_schedule`;
* the `while` loop of `drive_leg` becomes a fuel-indexed recursion
  (`drive_leg_loop`), returning `none` when the fuel runs out; the
  termination theorem shows some fuel always suffices;
* the loop additionally returns a ghost list of snapshots, one per
  emitted DRIVING entry: the `SimState` just before the entry was
  recorded and the (raw, unrounded) duration of the entry.  The ghost
  data is dropped by `calculate_schedule` and does not influence the
  computation;
* `interpolate_along_route` computes Euclidean segment lengths
  (`((dx)**2 + (dy)**2) ** 0.5`), which are irrational; it is embedded
  over an abstract segment-length function `d`, and its theorems assume
  only the two properties the Euclidean length enjoys: nonnegativity and
  definiteness (`d p q = 0 → p = q`).  Inside `calculate_schedule` the
  per-leg position lookup (interpolation composed with the `"lon,lat"`
  string encoding) is likewise passed as a parameter `interp`.
-/

namespace Atlas

/-- Python's `round` to an integer: round half to even (banker's rounding). -/
def pyRound (x : ℚ) : ℤ :=
  let f := ⌊x⌋
  let r := x - f
  if r < 1/2 then f
  else if 1/2 < r then f + 1
  else if f % 2 = 0 then f else f + 1

/-- Python's `round(x, 3)`. -/
def round3 (x : ℚ) : ℚ := pyRound (x * 1000) / 1000

/-- Python's `round(x, 1)`. -/
def round1 (x : ℚ) : ℚ := pyRound (x * 10) / 10

/-- Python's `int(x)`: truncation toward zero. -/
def pyInt (x : ℚ) : ℤ := if 0 ≤ x then ⌊x⌋ else -⌊-x⌋

/-- A `(longitude, latitude)` pair of the route geometry. -/
abbrev Point : Type := ℚ × ℚ

/-- The four duty statuses of the log.  The Python code uses the strings
`"DRIVING"`, `"ON_DUTY"`, `"OFF_DUTY"`, `"SLEEPER"`. -/
inductive DutyStatus : Type where
  | DRIVING
  | ON_DUTY
  | OFF_DUTY
  | SLEEPER
deriving Repr, DecidableEq

/-- One entry of the `logs` list (`end` is a Lean keyword, so the field is
named `endT`). -/
structure LogEntry : Type where
  status : DutyStatus
  start : ℚ
  endT : ℚ
  location : String
  remarks : String
deriving Repr, DecidableEq

/-- One entry of the `stops` list. -/
structure Stop : Type where
  coords : String
  type : String
  remark : String
  time : ℚ
  duration : ℚ
deriving Repr, DecidableEq

/-- The mutable trip state of `calculate_schedule`: the regulatory counters
together with the two output accumulators. -/
structure SimState : Type where
  current_time : ℚ
  cycle_used : ℚ
  drive_clock : ℚ
  window_clock : ℚ
  since_break_clock : ℚ
  miles_since_fuel : ℚ
  logs : List LogEntry
  stops : List Stop
deriving Repr, DecidableEq

/-- The result of `get_osrm_route`. -/
structure RouteLeg : Type where
  distance_miles : ℚ
  geometry : List Point
deriving Repr, DecidableEq

/-- The `summary` dictionary of the response. -/
structure Summary : Type where
  total_miles : ℚ
  leg1_miles : ℚ
  leg2_miles : ℚ
  total_drive_time : ℚ
  total_rest_time : ℚ
  total_on_duty_time : ℚ
  total_trip_time : ℚ
  num_stops : ℕ
  num_days : ℤ
deriving Repr, DecidableEq

/-- The successful response of `calculate_schedule`. -/
structure TripResult : Type where
  logs : List LogEntry
  stops : List Stop
  leg1_geometry : List Point
  leg2_geometry : List Point
  summary : Summary
deriving Repr, DecidableEq

-- FMCSA regulation constants of `utils.py`.
def MAX_DRIVE_TIME : ℚ := 11
def MAX_DUTY_WINDOW : ℚ := 14
def BREAK_REQUIRED_AFTER : ℚ := 8
def MIN_BREAK : ℚ := 1/2
def SLEEPER_REST : ℚ := 10
def FUEL_INTERVAL : ℚ := 1000
def LOAD_UNLOAD_TIME : ℚ := 1
def MAX_CYCLE_LIMIT : ℚ := 70
def RESTART_34 : ℚ := 34
def AVG_SPEED : ℚ := 55

-- The string literals of the code, named once.
def REMARK_RESTART : String := "34-hr Restart (Cycle Reset)"
def REMARK_SLEEPER : String := "10-hr Sleeper Berth"
def REMARK_BREAK : String := "30-min Break"
def REMARK_FUEL : String := "Fuel Stop"
def REMARK_DRIVING : String := "Driving"
def REMARK_INSPECTION : String := "Pre-trip Inspection"
def REMARK_LOADING : String := "Loading at Pickup"
def REMARK_UNLOADING : String := "Unloading at Dropoff"
def REMARK_TRIP_START : String := "Trip Start"
def REMARK_TRIP_END : String := "Trip Complete"
def STOP_RESTART : String := "restart"
def STOP_SLEEP : String := "sleep"
def STOP_BREAK : String := "break"
def STOP_FUEL : String := "fuel"
def STOP_INSPECTION : String := "inspection"
def STOP_PICKUP : String := "pickup"
def STOP_DROPOFF : String := "dropoff"
def STOP_START : String := "start"
def STOP_END : String := "end"
def ERR_CURRENT : String := "Could not locate current location: "
def ERR_PICKUP : String := "Could not locate pickup location: "
def ERR_DROPOFF : String := "Could not locate dropoff location: "
def ERR_LEG1 : String := "Could not calculate route from Current Location to Pickup."
def ERR_LEG2 : String := "Could not calculate route from Pickup to Dropoff."

/-- `f"En Route ({leg_name})"`. -/
def enRoute (leg_name : String) : String := "En Route (" ++ leg_name ++ ")"

/-- The `leg_name` of leg 1. -/
def LEG1_NAME : String := "to Pickup"

/-- The `leg_name` of leg 2. -/
def LEG2_NAME : String := "to Dropoff"

/-- The `add_event` helper of `calculate_schedule` (lines 141-190 of
`utils.py`).  `stop_type = none` models the Python default `stop_type=None`;
every call site passes either `None` or a non-empty literal, so presence of
the option models the `if stop_type:` truthiness test exactly. -/
def add_event (status : DutyStatus) (duration : ℚ) (loc_coords : String)
    (remark : String) (stop_type : Option String) (s : SimState) : SimState :=
  let d := max 0 duration
  let start := s.current_time
  let endT := s.current_time + d
  let s1 : SimState := { s with
    logs := s.logs ++ [⟨status, round3 start, round3 endT, loc_coords, remark⟩]
    stops := match stop_type with
      | some ty => s.stops ++ [⟨loc_coords, ty, remark, round3 start, round3 d⟩]
      | none => s.stops
    current_time := endT }
  match status with
  | .DRIVING =>
      { s1 with drive_clock := s1.drive_clock + d
                since_break_clock := s1.since_break_clock + d
                cycle_used := s1.cycle_used + d
                window_clock := s1.window_clock + d }
  | .ON_DUTY =>
      let s2 := { s1 with cycle_used := s1.cycle_used + d
                          window_clock := s1.window_clock + d }
      if 1/2 ≤ d then { s2 with since_break_clock := 0 } else s2
  | .OFF_DUTY | .SLEEPER =>
      let s2 := { s1 with window_clock := s1.window_clock + d }
      let s3 := if 1/2 ≤ d then { s2 with since_break_clock := 0 } else s2
      let s4 := if 10 ≤ d then
        { s3 with drive_clock := 0, window_clock := 0, since_break_clock := 0 } else s3
      if 34 ≤ d then { s4 with cycle_used := 0 } else s4

/-- The six-way minimum of lines 211-227 of `utils.py`: available driving
time under each constraint, for remaining distance `r` in state `s`. -/
def limiting_time (r : ℚ) (s : SimState) : ℚ :=
  min (r / AVG_SPEED)
    (min (max 0 (MAX_DRIVE_TIME - s.drive_clock))
      (min (max 0 (MAX_DUTY_WINDOW - s.window_clock))
        (min (max 0 (BREAK_REQUIRED_AFTER - s.since_break_clock))
          (min (max 0 (MAX_CYCLE_LIMIT - s.cycle_used))
            (max 0 ((FUEL_INTERVAL - s.miles_since_fuel) / AVG_SPEED))))))

/-- The "cannot drive at all" branch of `drive_leg` (lines 230-255): insert
one rest/fuel event, chosen by the priority cycle → drive/window → break →
fuel.  The `miles_since_fuel = 0` assignment after the fuel `add_event` is
part of the branch. -/
def exhaustedInsert (current_pos : String) (s : SimState) : SimState :=
  if max 0 (MAX_CYCLE_LIMIT - s.cycle_used) ≤ 1/1000 then
    add_event .OFF_DUTY RESTART_34 current_pos REMARK_RESTART (some STOP_RESTART) s
  else if max 0 (MAX_DRIVE_TIME - s.drive_clock) ≤ 1/1000
      ∨ max 0 (MAX_DUTY_WINDOW - s.window_clock) ≤ 1/1000 then
    add_event .SLEEPER SLEEPER_REST current_pos REMARK_SLEEPER (some STOP_SLEEP) s
  else if max 0 (BREAK_REQUIRED_AFTER - s.since_break_clock) ≤ 1/1000 then
    add_event .OFF_DUTY MIN_BREAK current_pos REMARK_BREAK (some STOP_BREAK) s
  else if max 0 ((FUEL_INTERVAL - s.miles_since_fuel) / AVG_SPEED) ≤ 1/1000 then
    let t := add_event .ON_DUTY (1/2) current_pos REMARK_FUEL (some STOP_FUEL) s
    { t with miles_since_fuel := 0 }
  else s

/-- The need-check after a DRIVING event that did not finish the leg
(lines 279-305): fuel → cycle → drive/window → break, at most one event. -/
def postDriveInsert (stop_pos : String) (s : SimState) : SimState :=
  if (FUEL_INTERVAL - s.miles_since_fuel) / AVG_SPEED ≤ 1/1000 then
    let t := add_event .ON_DUTY (1/2) stop_pos REMARK_FUEL (some STOP_FUEL) s
    { t with miles_since_fuel := 0 }
  else if MAX_CYCLE_LIMIT - s.cycle_used ≤ 1/1000 then
    add_event .OFF_DUTY RESTART_34 stop_pos REMARK_RESTART (some STOP_RESTART) s
  else if MAX_DRIVE_TIME - s.drive_clock ≤ 1/1000
      ∨ MAX_DUTY_WINDOW - s.window_clock ≤ 1/1000 then
    add_event .SLEEPER SLEEPER_REST stop_pos REMARK_SLEEPER (some STOP_SLEEP) s
  else if BREAK_REQUIRED_AFTER - s.since_break_clock ≤ 1/1000 then
    add_event .OFF_DUTY MIN_BREAK stop_pos REMARK_BREAK (some STOP_BREAK) s
  else s

/-- The duration of the DRIVING event of one loop iteration (lines 258-268):
`time_to_finish` when the leg can be finished, else `limiting_time`. -/
def driveTime (r : ℚ) (s : SimState) : ℚ :=
  if limiting_time r s ≥ r / AVG_SPEED then r / AVG_SPEED else limiting_time r s

/-- The miles covered by that DRIVING event: all of `remaining` when the leg
is finished, else `limiting_time * AVG_SPEED`. -/
def milesDriven (r : ℚ) (s : SimState) : ℚ :=
  if limiting_time r s ≥ r / AVG_SPEED then r else limiting_time r s * AVG_SPEED

/-- The remaining distance after that DRIVING event. -/
def remainingAfter (r : ℚ) (s : SimState) : ℚ :=
  if limiting_time r s ≥ r / AVG_SPEED then 0
  else r - limiting_time r s * AVG_SPEED

/-- The state after the DRIVING `add_event` and the
`miles_since_fuel += miles_driven` update (lines 258-272). -/
def afterDrive (leg_name : String) (r : ℚ) (s : SimState) : SimState :=
  let s1 := add_event .DRIVING (driveTime r s) (enRoute leg_name) REMARK_DRIVING none s
  { s1 with miles_since_fuel := s1.miles_since_fuel + milesDriven r s }

/-- The `while remaining > 0.5` loop of `drive_leg` (lines 205-305), as a
fuel-indexed recursion.  `posOpt f` is `interpolate_along_route(geometry, f)`
for this leg's geometry; `(posOpt f).getD fb` is the `get_position` helper
with fallback `fb`.  Returns the final state together with the ghost list of
(pre-state, raw duration) snapshots of the DRIVING entries emitted. -/
def drive_leg_loop (posOpt : ℚ → Option String) (start_coords : String)
    (total_miles : ℚ) (leg_name : String) :
    ℕ → ℚ → ℚ → SimState → Option (SimState × List (SimState × ℚ))
  | 0, _, _, _ => none
  | fuel + 1, remaining, driven_on_leg, s =>
    if remaining > 1/2 then
      let current_pos :=
        (posOpt (if total_miles > 0 then driven_on_leg / total_miles else 0)).getD
          start_coords
      if limiting_time remaining s ≤ 1/1000 then
        drive_leg_loop posOpt start_coords total_miles leg_name fuel remaining
          driven_on_leg (exhaustedInsert current_pos s)
      else
        let driven' := driven_on_leg + milesDriven remaining s
        let s2 := afterDrive leg_name remaining s
        let s3 :=
          if remainingAfter remaining s > 1/2 then
            postDriveInsert
              ((posOpt (if total_miles > 0 then driven' / total_miles else 1)).getD
                current_pos) s2
          else s2
        (drive_leg_loop posOpt start_coords total_miles leg_name fuel
            (remainingAfter remaining s) driven' s3).map
          (fun p => (p.1, (s, driveTime remaining s) :: p.2))
    else some (s, [])

/-- `drive_leg(start_coords, total_miles, geometry_coords, leg_name)`:
enter the loop with `remaining = total_miles`, `driven_on_leg = 0.0`. -/
def drive_leg (posOpt : ℚ → Option String) (start_coords : String)
    (total_miles : ℚ) (leg_name : String) (fuel : ℕ) (s : SimState) :
    Option (SimState × List (SimState × ℚ)) :=
  drive_leg_loop posOpt start_coords total_miles leg_name fuel total_miles 0 s

/-- Tracker initialisation (lines 130-138) plus the `start` stop marker
(lines 312-320): `current_time = 6.0` (6:00 AM start), `cycle_used` from the
input (Python truthiness: falsy input gives `0.0`), all other counters
zero. -/
def init_state (curr_coords : String) (cycle_used_input : ℚ) : SimState :=
  let cycle_used := if cycle_used_input ≠ 0 then cycle_used_input else 0
  { current_time := 6, cycle_used := cycle_used, drive_clock := 0
    window_clock := 0, since_break_clock := 0, miles_since_fuel := 0
    logs := []
    stops := [⟨curr_coords, STOP_START, REMARK_TRIP_START, 6, 0⟩] }

/-- The trip execution of `calculate_schedule` (lines 130-348): tracker
initialisation, start marker, pre-trip inspection, leg 1, loading, leg 2,
unloading, end marker.  `interp geom f` models
`interpolate_along_route(geom, f)` (already string-encoded). -/
def run_trip (interp : List Point → ℚ → Option String)
    (curr_coords pick_coords drop_coords : String) (leg1 leg2 : RouteLeg)
    (cycle_used_input : ℚ) (fuel : ℕ) :
    Option (SimState × List (SimState × ℚ)) :=
  let s1 := add_event .ON_DUTY (1/4) curr_coords REMARK_INSPECTION
    (some STOP_INSPECTION) (init_state curr_coords cycle_used_input)
  match drive_leg (interp leg1.geometry) curr_coords leg1.distance_miles
      LEG1_NAME fuel s1 with
  | none => none
  | some (s2, snaps1) =>
    let s3 := add_event .ON_DUTY LOAD_UNLOAD_TIME pick_coords REMARK_LOADING
      (some STOP_PICKUP) s2
    match drive_leg (interp leg2.geometry) pick_coords leg2.distance_miles
        LEG2_NAME fuel s3 with
    | none => none
    | some (s4, snaps2) =>
      let s5 := add_event .ON_DUTY LOAD_UNLOAD_TIME drop_coords REMARK_UNLOADING
        (some STOP_DROPOFF) s4
      let s6 := { s5 with
        stops := s5.stops ++ [⟨drop_coords, STOP_END, REMARK_TRIP_END, s5.current_time, 0⟩] }
      some (s6, snaps1 ++ snaps2)

/-- The `summary` dictionary (lines 354-379). -/
def build_summary (leg1 leg2 : RouteLeg) (s : SimState) : Summary :=
  let total_drive :=
    ((s.logs.filter (fun l => l.status == .DRIVING)).map (fun l => l.endT - l.start)).sum
  let total_rest :=
    ((s.logs.filter (fun l => l.status == .OFF_DUTY || l.status == .SLEEPER)).map
      (fun l => l.endT - l.start)).sum
  let total_on_duty :=
    ((s.logs.filter (fun l => l.status == .ON_DUTY)).map (fun l => l.endT - l.start)).sum
  let trip_duration := s.current_time - 6
  { total_miles := round1 (leg1.distance_miles + leg2.distance_miles)
    leg1_miles := round1 leg1.distance_miles
    leg2_miles := round1 leg2.distance_miles
    total_drive_time := round1 total_drive
    total_rest_time := round1 total_rest
    total_on_duty_time := round1 total_on_duty
    total_trip_time := round1 trip_duration
    num_stops := s.stops.length
    num_days := max 1 (pyInt (s.current_time / 24) + 1) }

/-- The successful response (lines 362-380). -/
def build_result (leg1 leg2 : RouteLeg) (s : SimState) : TripResult :=
  { logs := s.logs, stops := s.stops
    leg1_geometry := leg1.geometry, leg2_geometry := leg2.geometry
    summary := build_summary leg1 leg2 s }

/-- `calculate_schedule(current_loc, pickup_loc, dropoff_loc,
cycle_used_input)` with the collaborators as parameters: `geocodeF` models
`geocode` and `routeF` models `get_osrm_route`.  The outer `Option` is the
fuel bound of the embedded loop (`none` = fuel ran out; never the code's
behaviour); `Except` separates the error dictionary from the result. -/
def calculate_schedule (interp : List Point → ℚ → Option String)
    (geocodeF : String → Option String)
    (routeF : String → String → Option RouteLeg)
    (current_loc pickup_loc dropoff_loc : String) (cycle_used_input : ℚ)
    (fuel : ℕ) : Option (Except String TripResult) :=
  match geocodeF current_loc with
  | none => some (.error (ERR_CURRENT ++ current_loc))
  | some curr_coords =>
    match geocodeF pickup_loc with
    | none => some (.error (ERR_PICKUP ++ pickup_loc))
    | some pick_coords =>
      match geocodeF dropoff_loc with
      | none => some (.error (ERR_DROPOFF ++ dropoff_loc))
      | some drop_coords =>
        match routeF curr_coords pick_coords with
        | none => some (.error ERR_LEG1)
        | some leg1 =>
          match routeF pick_coords drop_coords with
          | none => some (.error ERR_LEG2)
          | some leg2 =>
            match run_trip interp curr_coords pick_coords drop_coords leg1 leg2
                cycle_used_input fuel with
            | none => none
            | some (s, _snaps) => some (.ok (build_result leg1 leg2 s))

/-- The list `segment_lengths` of `interpolate_along_route`, over an
abstract segment-length function `d`. -/
def pathSegLens (d : Point → Point → ℚ) : List Point → List ℚ
  | p :: q :: rest => d p q :: pathSegLens d (q :: rest)
  | _ => []

/-- The segment walk of `interpolate_along_route` (lines 82-97): find the
segment containing `target`, linearly interpolate inside it; past the last
segment return the last point. -/
def walkSegs (d : Point → Point → ℚ) (target : ℚ) : ℚ → List Point → Option Point
  | _, [] => none
  | _, [p] => some p
  | cur, p :: q :: rest =>
    if cur + d p q ≥ target then
      let segFrac := if d p q > 0 then (target - cur) / d p q else 0
      some (p.1 + (q.1 - p.1) * segFrac, p.2 + (q.2 - p.2) * segFrac)
    else walkSegs d target (cur + d p q) (q :: rest)

/-- `interpolate_along_route(geometry_coords, fraction)` (lines 50-97) over
an abstract segment-length function `d` (the source's `d` is the planar
Euclidean length).  The source clamps the fraction before the
single-point test; the clamp does not affect that branch. -/
def interpolate_along_route (d : Point → Point → ℚ) (coords : List Point)
    (fraction : ℚ) : Option Point :=
  match coords with
  | [] => none
  | [p] => some p
  | p :: q :: rest =>
    let f := max 0 (min 1 fraction)
    let total := (pathSegLens d (p :: q :: rest)).sum
    if total = 0 then some p
    else walkSegs d (f * total) 0 (p :: q :: rest)

/-! ### Rounding lemmas -/

lemma pyRound_ge_floor (x : ℚ) : ⌊x⌋ ≤ pyRound x := by
  simp only [pyRound]
  split_ifs <;> omega

lemma pyRound_le_floor_add_one (x : ℚ) : pyRound x ≤ ⌊x⌋ + 1 := by
  simp only [pyRound]
  split_ifs <;> omega

lemma pyRound_mono {x y : ℚ} (h : x ≤ y) : pyRound x ≤ pyRound y := by
  have hf : ⌊x⌋ ≤ ⌊y⌋ := Int.floor_le_floor h
  by_cases heq : ⌊x⌋ = ⌊y⌋
  · have hx1 : (⌊y⌋ : ℚ) ≤ x := by
      rw [← heq]; exact Int.floor_le x
    simp only [pyRound, heq]
    split_ifs <;> first | omega | linarith
  · have hlt : ⌊x⌋ < ⌊y⌋ := lt_of_le_of_ne hf heq
    have h1 := pyRound_le_floor_add_one x
    have h2 := pyRound_ge_floor y
    omega

lemma round3_mono {x y : ℚ} (h : x ≤ y) : round3 x ≤ round3 y := by
  have h1 : pyRound (x * 1000) ≤ pyRound (y * 1000) := pyRound_mono (by linarith)
  have h2 : ((pyRound (x * 1000) : ℚ)) ≤ ((pyRound (y * 1000) : ℚ)) := by
    exact_mod_cast h1
  unfold round3
  linarith

lemma max_milli {x : ℚ} : max 0 x ≤ 1/1000 ↔ x ≤ 1/1000 := by
  rw [max_le_iff]
  exact ⟨fun h => h.2, fun h => ⟨by norm_num, h⟩⟩

/-! ### `add_event` field lemmas -/

lemma add_event_current_time (st : DutyStatus) (d : ℚ) (l r : String)
    (ty : Option String) (s : SimState) :
    (add_event st d l r ty s).current_time = s.current_time + max 0 d := by
  cases st <;> simp only [add_event] <;> split_ifs <;> rfl

lemma add_event_msf (st : DutyStatus) (d : ℚ) (l r : String)
    (ty : Option String) (s : SimState) :
    (add_event st d l r ty s).miles_since_fuel = s.miles_since_fuel := by
  cases st <;> simp only [add_event] <;> split_ifs <;> rfl

lemma add_event_logs (st : DutyStatus) (d : ℚ) (l r : String)
    (ty : Option String) (s : SimState) :
    (add_event st d l r ty s).logs = s.logs ++
      [⟨st, round3 s.current_time, round3 (s.current_time + max 0 d), l, r⟩] := by
  cases st <;> simp only [add_event] <;> split_ifs <;> rfl

lemma add_event_stops_some (st : DutyStatus) (d : ℚ) (l r t : String) (s : SimState) :
    (add_event st d l r (some t) s).stops = s.stops ++
      [⟨l, t, r, round3 s.current_time, round3 (max 0 d)⟩] := by
  cases st <;> simp only [add_event] <;> split_ifs <;> rfl

lemma add_event_stops_none (st : DutyStatus) (d : ℚ) (l r : String) (s : SimState) :
    (add_event st d l r none s).stops = s.stops := by
  cases st <;> simp only [add_event] <;> split_ifs <;> rfl

lemma add_event_driving_clocks (d : ℚ) (l r : String) (ty : Option String)
    (s : SimState) :
    (add_event .DRIVING d l r ty s).drive_clock = s.drive_clock + max 0 d ∧
    (add_event .DRIVING d l r ty s).since_break_clock = s.since_break_clock + max 0 d ∧
    (add_event .DRIVING d l r ty s).cycle_used = s.cycle_used + max 0 d ∧
    (add_event .DRIVING d l r ty s).window_clock = s.window_clock + max 0 d := by
  refine ⟨rfl, rfl, rfl, rfl⟩

lemma add_event_onduty_clocks (d : ℚ) (l r : String) (ty : Option String)
    (s : SimState) :
    (add_event .ON_DUTY d l r ty s).cycle_used = s.cycle_used + max 0 d ∧
    (add_event .ON_DUTY d l r ty s).window_clock = s.window_clock + max 0 d ∧
    (add_event .ON_DUTY d l r ty s).drive_clock = s.drive_clock ∧
    (add_event .ON_DUTY d l r ty s).since_break_clock =
      (if 1/2 ≤ max 0 d then 0 else s.since_break_clock) := by
  simp only [add_event]
  split_ifs <;> exact ⟨rfl, rfl, rfl, rfl⟩

lemma add_event_off_clocks (st : DutyStatus)
    (hst : st = .OFF_DUTY ∨ st = .SLEEPER) (d : ℚ) (l r : String)
    (ty : Option String) (s : SimState) :
    (add_event st d l r ty s).cycle_used =
      (if 34 ≤ max 0 d then 0 else s.cycle_used) ∧
    (add_event st d l r ty s).drive_clock =
      (if 10 ≤ max 0 d then 0 else s.drive_clock) ∧
    (add_event st d l r ty s).window_clock =
      (if 10 ≤ max 0 d then 0 else s.window_clock + max 0 d) ∧
    (add_event st d l r ty s).since_break_clock =
      (if 1/2 ≤ max 0 d then 0 else s.since_break_clock) := by
  rcases hst with hst | hst <;> subst hst <;>
    · refine ⟨?_, ?_, ?_, ?_⟩ <;>
        (simp only [add_event]; split_ifs <;> first | rfl | linarith)

/-! ### `limiting_time` bounds -/

lemma limiting_le_fin (r : ℚ) (s : SimState) :
    limiting_time r s ≤ r / AVG_SPEED := by
  unfold limiting_time; exact min_le_left _ _

lemma limiting_le_drive (r : ℚ) (s : SimState) :
    limiting_time r s ≤ max 0 (MAX_DRIVE_TIME - s.drive_clock) := by
  unfold limiting_time
  exact (min_le_right _ _).trans (min_le_left _ _)

lemma limiting_le_window (r : ℚ) (s : SimState) :
    limiting_time r s ≤ max 0 (MAX_DUTY_WINDOW - s.window_clock) := by
  unfold limiting_time
  exact (min_le_right _ _).trans ((min_le_right _ _).trans (min_le_left _ _))

lemma limiting_le_break (r : ℚ) (s : SimState) :
    limiting_time r s ≤ max 0 (BREAK_REQUIRED_AFTER - s.since_break_clock) := by
  unfold limiting_time
  exact (min_le_right _ _).trans ((min_le_right _ _).trans
    ((min_le_right _ _).trans (min_le_left _ _)))

lemma limiting_le_cycle (r : ℚ) (s : SimState) :
    limiting_time r s ≤ max 0 (MAX_CYCLE_LIMIT - s.cycle_used) := by
  unfold limiting_time
  exact (min_le_right _ _).trans ((min_le_right _ _).trans
    ((min_le_right _ _).trans ((min_le_right _ _).trans (min_le_left _ _))))

lemma limiting_le_fuel (r : ℚ) (s : SimState) :
    limiting_time r s ≤ max 0 ((FUEL_INTERVAL - s.miles_since_fuel) / AVG_SPEED) := by
  unfold limiting_time
  exact (min_le_right _ _).trans ((min_le_right _ _).trans
    ((min_le_right _ _).trans ((min_le_right _ _).trans (min_le_right _ _))))

/-- The clock bounds that hold whenever the loop decides it may drive. -/
lemma clocks_ok_of_not_limited {r : ℚ} {s : SimState}
    (h : ¬ limiting_time r s ≤ 1/1000) :
    s.drive_clock ≤ MAX_DRIVE_TIME ∧ s.window_clock ≤ MAX_DUTY_WINDOW ∧
    s.since_break_clock ≤ BREAK_REQUIRED_AFTER ∧ s.cycle_used ≤ MAX_CYCLE_LIMIT ∧
    s.miles_since_fuel ≤ FUEL_INTERVAL := by
  push_neg at h
  have h1 := lt_of_lt_of_le h (limiting_le_drive r s)
  have h2 := lt_of_lt_of_le h (limiting_le_window r s)
  have h3 := lt_of_lt_of_le h (limiting_le_break r s)
  have h4 := lt_of_lt_of_le h (limiting_le_cycle r s)
  have h5 := lt_of_lt_of_le h (limiting_le_fuel r s)
  rw [lt_max_iff] at h1 h2 h3 h4 h5
  have c1 := h1.resolve_left (by norm_num)
  have c2 := h2.resolve_left (by norm_num)
  have c3 := h3.resolve_left (by norm_num)
  have c4 := h4.resolve_left (by norm_num)
  have c5 := h5.resolve_left (by norm_num)
  have c5' : s.miles_since_fuel < FUEL_INTERVAL := by
    rw [lt_div_iff₀ (by norm_num [AVG_SPEED] : (0:ℚ) < AVG_SPEED)] at c5
    norm_num [AVG_SPEED] at c5
    linarith
  exact ⟨by linarith, by linarith, by linarith, by linarith, le_of_lt c5'⟩

/-! ### Loop step equations -/

lemma drive_leg_loop_zero (posOpt : ℚ → Option String) (sc : String) (tm : ℚ)
    (nm : String) (r d : ℚ) (s : SimState) :
    drive_leg_loop posOpt sc tm nm 0 r d s = none := rfl

lemma drive_leg_loop_done (posOpt : ℚ → Option String) (sc : String) (tm : ℚ)
    (nm : String) (fuel : ℕ) (r d : ℚ) (s : SimState) (hr : ¬ r > 1/2) :
    drive_leg_loop posOpt sc tm nm (fuel + 1) r d s = some (s, []) := by
  simp only [drive_leg_loop]
  rw [if_neg hr]

lemma drive_leg_loop_exhausted (posOpt : ℚ → Option String) (sc : String)
    (tm : ℚ) (nm : String) (fuel : ℕ) (r d : ℚ) (s : SimState)
    (hr : r > 1/2) (hl : limiting_time r s ≤ 1/1000) :
    drive_leg_loop posOpt sc tm nm (fuel + 1) r d s =
      drive_leg_loop posOpt sc tm nm fuel r d
        (exhaustedInsert ((posOpt (if tm > 0 then d / tm else 0)).getD sc) s) := by
  simp only [drive_leg_loop]
  rw [if_pos hr, if_pos hl]

lemma drive_leg_loop_drive (posOpt : ℚ → Option String) (sc : String)
    (tm : ℚ) (nm : String) (fuel : ℕ) (r d : ℚ) (s : SimState)
    (hr : r > 1/2) (hl : ¬ limiting_time r s ≤ 1/1000) :
    drive_leg_loop posOpt sc tm nm (fuel + 1) r d s =
      (drive_leg_loop posOpt sc tm nm fuel (remainingAfter r s)
        (d + milesDriven r s)
        (if remainingAfter r s > 1/2 then
          postDriveInsert
            ((posOpt (if tm > 0 then (d + milesDriven r s) / tm else 1)).getD
              ((posOpt (if tm > 0 then d / tm else 0)).getD sc))
            (afterDrive nm r s)
         else afterDrive nm r s)).map
        (fun p => (p.1, (s, driveTime r s) :: p.2)) := by
  simp only [drive_leg_loop]
  rw [if_pos hr, if_neg hl]

/-! ### Facts about the drive step -/

lemma avg_speed_pos : (0:ℚ) < AVG_SPEED := by norm_num [AVG_SPEED]

lemma milesDriven_eq (r : ℚ) (s : SimState) :
    milesDriven r s = driveTime r s * AVG_SPEED := by
  unfold milesDriven driveTime
  split_ifs with h
  · rw [div_mul_cancel₀ _ (ne_of_gt avg_speed_pos)]
  · rfl

lemma remainingAfter_nonneg (r : ℚ) (s : SimState) (_h0 : 0 ≤ r) :
    0 ≤ remainingAfter r s := by
  unfold remainingAfter
  split_ifs with h
  · norm_num
  · push_neg at h
    rw [lt_div_iff₀ avg_speed_pos] at h
    linarith

lemma remainingAfter_add_milesDriven (r : ℚ) (s : SimState) :
    remainingAfter r s + milesDriven r s = r := by
  unfold remainingAfter milesDriven
  split_ifs with h
  · ring
  · ring

/-- The fuel constraint caps the miles of one DRIVING event. -/
lemma msf_add_milesDriven_le (r : ℚ) (s : SimState)
    (hl : ¬ limiting_time r s ≤ 1/1000) :
    s.miles_since_fuel + milesDriven r s ≤ FUEL_INTERVAL := by
  push_neg at hl
  have hfu := limiting_le_fuel r s
  have hfu' : limiting_time r s ≤ (FUEL_INTERVAL - s.miles_since_fuel) / AVG_SPEED := by
    rcases le_max_iff.mp hfu with h | h
    · linarith
    · exact h
  have hkey : limiting_time r s * AVG_SPEED ≤ FUEL_INTERVAL - s.miles_since_fuel := by
    rw [← le_div_iff₀ avg_speed_pos]
    exact hfu'
  unfold milesDriven
  split_ifs with h
  · have : r / AVG_SPEED * AVG_SPEED ≤ limiting_time r s * AVG_SPEED := by
      have := mul_le_mul_of_nonneg_right h (le_of_lt avg_speed_pos)
      linarith
    rw [div_mul_cancel₀ _ (ne_of_gt avg_speed_pos)] at this
    linarith
  · linarith

lemma afterDrive_msf (nm : String) (r : ℚ) (s : SimState) :
    (afterDrive nm r s).miles_since_fuel = s.miles_since_fuel + milesDriven r s := by
  unfold afterDrive
  show (add_event .DRIVING (driveTime r s) (enRoute nm) REMARK_DRIVING none
    s).miles_since_fuel + milesDriven r s = _
  rw [add_event_msf]

lemma afterDrive_msf_le (nm : String) (r : ℚ) (s : SimState)
    (hl : ¬ limiting_time r s ≤ 1/1000) :
    (afterDrive nm r s).miles_since_fuel ≤ FUEL_INTERVAL := by
  rw [afterDrive_msf]
  exact msf_add_milesDriven_le r s hl

/-! ### The rest/fuel insert events -/

lemma exhaustedInsert_msf (pos : String) (s : SimState) :
    (exhaustedInsert pos s).miles_since_fuel = s.miles_since_fuel ∨
    (exhaustedInsert pos s).miles_since_fuel = 0 := by
  unfold exhaustedInsert
  split_ifs <;> first
    | exact Or.inl (add_event_msf _ _ _ _ _ _)
    | exact Or.inr rfl
    | exact Or.inl rfl

lemma postDriveInsert_msf (pos : String) (s : SimState) :
    (postDriveInsert pos s).miles_since_fuel = s.miles_since_fuel ∨
    (postDriveInsert pos s).miles_since_fuel = 0 := by
  unfold postDriveInsert
  split_ifs <;> first
    | exact Or.inl (add_event_msf _ _ _ _ _ _)
    | exact Or.inr rfl
    | exact Or.inl rfl

lemma exhaustedInsert_msf_le (pos : String) (s : SimState)
    (h : s.miles_since_fuel ≤ FUEL_INTERVAL) :
    (exhaustedInsert pos s).miles_since_fuel ≤ FUEL_INTERVAL := by
  rcases exhaustedInsert_msf pos s with h' | h' <;> rw [h'] <;>
    first | exact h | norm_num [FUEL_INTERVAL]

lemma postDriveInsert_msf_le (pos : String) (s : SimState)
    (h : s.miles_since_fuel ≤ FUEL_INTERVAL) :
    (postDriveInsert pos s).miles_since_fuel ≤ FUEL_INTERVAL := by
  rcases postDriveInsert_msf pos s with h' | h' <;> rw [h'] <;>
    first | exact h | norm_num [FUEL_INTERVAL]

lemma exhaustedInsert_countP (pos : String) (s : SimState) :
    ((exhaustedInsert pos s).logs.countP (fun l => l.status == .DRIVING)) =
      s.logs.countP (fun l => l.status == .DRIVING) := by
  unfold exhaustedInsert
  split_ifs <;>
    simp [add_event_logs, List.countP_append, List.countP_cons]

lemma postDriveInsert_countP (pos : String) (s : SimState) :
    ((postDriveInsert pos s).logs.countP (fun l => l.status == .DRIVING)) =
      s.logs.countP (fun l => l.status == .DRIVING) := by
  unfold postDriveInsert
  split_ifs <;>
    simp [add_event_logs, List.countP_append, List.countP_cons]

lemma afterDrive_countP (nm : String) (r : ℚ) (s : SimState) :
    ((afterDrive nm r s).logs.countP (fun l => l.status == .DRIVING)) =
      s.logs.countP (fun l => l.status == .DRIVING) + 1 := by
  unfold afterDrive
  show ((add_event .DRIVING (driveTime r s) (enRoute nm) REMARK_DRIVING none
    s).logs.countP _) = _
  simp [add_event_logs, List.countP_append, List.countP_cons]

/-! ### The log chain invariant -/

/-- The produced log is a gapless chain of nonnegative-duration intervals
whose last recorded end is the (rounded) current time. -/
def ChainedState (s : SimState) : Prop :=
  List.Chain' (fun a b => a.endT = b.start) s.logs ∧
  (∀ e ∈ s.logs, e.start ≤ e.endT) ∧
  (∀ e, s.logs.getLast? = some e → e.endT = round3 s.current_time)

lemma chainedState_add_event (st : DutyStatus) (d : ℚ) (l r : String)
    (ty : Option String) (s : SimState) (h : ChainedState s) :
    ChainedState (add_event st d l r ty s) := by
  obtain ⟨hc, hd, hl⟩ := h
  have hnn : s.current_time ≤ s.current_time + max 0 d :=
    le_add_of_nonneg_right (le_max_left 0 d)
  refine ⟨?_, ?_, ?_⟩
  · rw [add_event_logs, List.chain'_append]
    refine ⟨hc, List.chain'_singleton _, ?_⟩
    intro x hx y hy
    rw [Option.mem_def] at hx hy
    simp only [List.head?_cons, Option.some.injEq] at hy
    subst hy
    exact hl x hx
  · intro e he
    rw [add_event_logs] at he
    rcases List.mem_append.mp he with he | he
    · exact hd e he
    · simp only [List.mem_singleton] at he
      subst he
      exact round3_mono hnn
  · intro e he
    rw [add_event_logs, List.getLast?_concat, Option.some.injEq] at he
    subst he
    rw [add_event_current_time]

lemma chainedState_update_msf (s : SimState) (m : ℚ) (h : ChainedState s) :
    ChainedState { s with miles_since_fuel := m } := h

lemma chainedState_update_stops (s : SimState) (x : List Stop)
    (h : ChainedState s) : ChainedState { s with stops := x } := h

lemma chainedState_exhaustedInsert (pos : String) (s : SimState)
    (h : ChainedState s) : ChainedState (exhaustedInsert pos s) := by
  unfold exhaustedInsert
  split_ifs <;> first
    | exact chainedState_update_msf _ _ (chainedState_add_event _ _ _ _ _ _ h)
    | exact chainedState_add_event _ _ _ _ _ _ h
    | exact h

lemma chainedState_postDriveInsert (pos : String) (s : SimState)
    (h : ChainedState s) : ChainedState (postDriveInsert pos s) := by
  unfold postDriveInsert
  split_ifs <;> first
    | exact chainedState_update_msf _ _ (chainedState_add_event _ _ _ _ _ _ h)
    | exact chainedState_add_event _ _ _ _ _ _ h
    | exact h

lemma chainedState_afterDrive (nm : String) (r : ℚ) (s : SimState)
    (h : ChainedState s) : ChainedState (afterDrive nm r s) :=
  chainedState_update_msf _ _ (chainedState_add_event _ _ _ _ _ _ h)

lemma chainedState_loop (posOpt : ℚ → Option String) (sc : String) (tm : ℚ)
    (nm : String) :
    ∀ (fuel : ℕ) (r d : ℚ) (s s' : SimState) (snaps : List (SimState × ℚ)),
      drive_leg_loop posOpt sc tm nm fuel r d s = some (s', snaps) →
      ChainedState s → ChainedState s' := by
  intro fuel
  induction fuel with
  | zero =>
    intro r d s s' snaps h _
    exact Option.noConfusion h
  | succ fuel ih =>
    intro r d s s' snaps h hs
    by_cases hr : r > 1/2
    · by_cases hl : limiting_time r s ≤ 1/1000
      · rw [drive_leg_loop_exhausted posOpt sc tm nm fuel r d s hr hl] at h
        exact ih _ _ _ _ _ h (chainedState_exhaustedInsert _ _ hs)
      · rw [drive_leg_loop_drive posOpt sc tm nm fuel r d s hr hl] at h
        obtain ⟨p, hp, heq⟩ := Option.map_eq_some'.mp h
        have h1 : p.1 = s' := congrArg Prod.fst heq
        rw [← h1]
        refine ih _ _ _ _ _ hp ?_
        split_ifs <;> first
          | exact chainedState_postDriveInsert _ _ (chainedState_afterDrive nm r s hs)
          | exact chainedState_afterDrive nm r s hs
    · rw [drive_leg_loop_done posOpt sc tm nm fuel r d s hr] at h
      simp only [Option.some.injEq, Prod.mk.injEq] at h
      exact h.1 ▸ hs

/-! ### Per-DRIVING-entry clock bounds (claim C1 infrastructure) -/

/-- The regulatory bounds that must hold at the instant a DRIVING entry
begins, for the snapshot `t = (pre-state, duration)`. -/
def SnapOK (t : SimState × ℚ) : Prop :=
  t.1.drive_clock ≤ MAX_DRIVE_TIME ∧ t.1.window_clock ≤ MAX_DUTY_WINDOW ∧
  t.1.since_break_clock ≤ BREAK_REQUIRED_AFTER ∧
  t.1.cycle_used ≤ MAX_CYCLE_LIMIT ∧
  t.1.miles_since_fuel ≤ FUEL_INTERVAL + 1/2

lemma loop_snaps_ok (posOpt : ℚ → Option String) (sc : String) (tm : ℚ)
    (nm : String) :
    ∀ (fuel : ℕ) (r d : ℚ) (s s' : SimState) (snaps : List (SimState × ℚ)),
      drive_leg_loop posOpt sc tm nm fuel r d s = some (s', snaps) →
      ∀ t ∈ snaps, SnapOK t := by
  intro fuel
  induction fuel with
  | zero =>
    intro r d s s' snaps h
    exact Option.noConfusion h
  | succ fuel ih =>
    intro r d s s' snaps h
    by_cases hr : r > 1/2
    · by_cases hl : limiting_time r s ≤ 1/1000
      · rw [drive_leg_loop_exhausted posOpt sc tm nm fuel r d s hr hl] at h
        exact ih _ _ _ _ _ h
      · rw [drive_leg_loop_drive posOpt sc tm nm fuel r d s hr hl] at h
        obtain ⟨p, hp, heq⟩ := Option.map_eq_some'.mp h
        have h2 : (s, driveTime r s) :: p.2 = snaps := congrArg Prod.snd heq
        rw [← h2]
        intro t ht
        rcases List.mem_cons.mp ht with ht | ht
        · subst ht
          obtain ⟨b1, b2, b3, b4, b5⟩ := clocks_ok_of_not_limited hl
          exact ⟨b1, b2, b3, b4, by linarith⟩
        · exact ih _ _ _ _ _ hp t ht
    · rw [drive_leg_loop_done posOpt sc tm nm fuel r d s hr] at h
      simp only [Option.some.injEq, Prod.mk.injEq] at h
      rw [← h.2]
      intro t ht
      exact absurd ht (List.not_mem_nil t)

/-! ### Distance accounting (claim C8 infrastructure) -/

lemma loop_distance (posOpt : ℚ → Option String) (sc : String) (tm : ℚ)
    (nm : String) :
    ∀ (fuel : ℕ) (r d : ℚ) (s s' : SimState) (snaps : List (SimState × ℚ)),
      drive_leg_loop posOpt sc tm nm fuel r d s = some (s', snaps) → 0 ≤ r →
      ∃ rfin, 0 ≤ rfin ∧ rfin ≤ 1/2 ∧
        AVG_SPEED * (snaps.map Prod.snd).sum = r - rfin ∧
        s'.logs.countP (fun l => l.status == .DRIVING) =
          s.logs.countP (fun l => l.status == .DRIVING) + snaps.length := by
  intro fuel
  induction fuel with
  | zero =>
    intro r d s s' snaps h
    exact Option.noConfusion h
  | succ fuel ih =>
    intro r d s s' snaps h h0
    by_cases hr : r > 1/2
    · by_cases hl : limiting_time r s ≤ 1/1000
      · rw [drive_leg_loop_exhausted posOpt sc tm nm fuel r d s hr hl] at h
        obtain ⟨rfin, p1, p2, p3, p4⟩ := ih _ _ _ _ _ h h0
        rw [exhaustedInsert_countP] at p4
        exact ⟨rfin, p1, p2, p3, p4⟩
      · rw [drive_leg_loop_drive posOpt sc tm nm fuel r d s hr hl] at h
        obtain ⟨p, hp, heq⟩ := Option.map_eq_some'.mp h
        have h1 : p.1 = s' := congrArg Prod.fst heq
        have h2 : (s, driveTime r s) :: p.2 = snaps := congrArg Prod.snd heq
        obtain ⟨rfin, p1, p2, p3, p4⟩ :=
          ih _ _ _ _ _ hp (remainingAfter_nonneg r s h0)
        refine ⟨rfin, p1, p2, ?_, ?_⟩
        · rw [← h2]
          simp only [List.map_cons, List.sum_cons]
          have hmd := milesDriven_eq r s
          have hra := remainingAfter_add_milesDriven r s
          calc AVG_SPEED * (driveTime r s + (p.2.map Prod.snd).sum)
              = driveTime r s * AVG_SPEED +
                AVG_SPEED * (p.2.map Prod.snd).sum := by ring
            _ = milesDriven r s + (remainingAfter r s - rfin) := by
                rw [← hmd, p3]
            _ = r - rfin := by linarith
        · rw [← h1, ← h2]
          have hcnt : (if remainingAfter r s > 1/2 then
              postDriveInsert
                ((posOpt (if tm > 0 then (d + milesDriven r s) / tm else 1)).getD
                  ((posOpt (if tm > 0 then d / tm else 0)).getD sc))
                (afterDrive nm r s)
             else afterDrive nm r s).logs.countP (fun l => l.status == .DRIVING) =
              s.logs.countP (fun l => l.status == .DRIVING) + 1 := by
            split_ifs <;> first
              | rw [postDriveInsert_countP, afterDrive_countP]
              | rw [afterDrive_countP]
          rw [p4, hcnt, List.length_cons]
          omega
    · rw [drive_leg_loop_done posOpt sc tm nm fuel r d s hr] at h
      simp only [Option.some.injEq, Prod.mk.injEq] at h
      refine ⟨r, h0, by linarith [not_lt.mp hr], ?_, ?_⟩
      · rw [← h.2]
        simp
      · rw [← h.1, ← h.2]
        simp

/-! ### Clock values after each rest/fuel event -/

lemma restart_clocks (l r : String) (ty : Option String) (s : SimState) :
    (add_event .OFF_DUTY RESTART_34 l r ty s).cycle_used = 0 ∧
    (add_event .OFF_DUTY RESTART_34 l r ty s).drive_clock = 0 ∧
    (add_event .OFF_DUTY RESTART_34 l r ty s).window_clock = 0 ∧
    (add_event .OFF_DUTY RESTART_34 l r ty s).since_break_clock = 0 := by
  obtain ⟨h1, h2, h3, h4⟩ := add_event_off_clocks .OFF_DUTY (Or.inl rfl) RESTART_34 l r ty s
  have hm : max (0:ℚ) RESTART_34 = 34 := by
    rw [RESTART_34]; exact max_eq_right (by norm_num)
  rw [h1, h2, h3, h4, hm]
  norm_num

lemma sleeper_clocks (l r : String) (ty : Option String) (s : SimState) :
    (add_event .SLEEPER SLEEPER_REST l r ty s).cycle_used = s.cycle_used ∧
    (add_event .SLEEPER SLEEPER_REST l r ty s).drive_clock = 0 ∧
    (add_event .SLEEPER SLEEPER_REST l r ty s).window_clock = 0 ∧
    (add_event .SLEEPER SLEEPER_REST l r ty s).since_break_clock = 0 := by
  obtain ⟨h1, h2, h3, h4⟩ := add_event_off_clocks .SLEEPER (Or.inr rfl) SLEEPER_REST l r ty s
  have hm : max (0:ℚ) SLEEPER_REST = 10 := by
    rw [SLEEPER_REST]; exact max_eq_right (by norm_num)
  rw [h1, h2, h3, h4, hm]
  norm_num

lemma break_clocks (l r : String) (ty : Option String) (s : SimState) :
    (add_event .OFF_DUTY MIN_BREAK l r ty s).cycle_used = s.cycle_used ∧
    (add_event .OFF_DUTY MIN_BREAK l r ty s).drive_clock = s.drive_clock ∧
    (add_event .OFF_DUTY MIN_BREAK l r ty s).window_clock = s.window_clock + 1/2 ∧
    (add_event .OFF_DUTY MIN_BREAK l r ty s).since_break_clock = 0 := by
  obtain ⟨h1, h2, h3, h4⟩ := add_event_off_clocks .OFF_DUTY (Or.inl rfl) MIN_BREAK l r ty s
  have hm : max (0:ℚ) MIN_BREAK = 1/2 := by
    rw [MIN_BREAK]; exact max_eq_right (by norm_num)
  rw [h1, h2, h3, h4, hm]
  norm_num

lemma fuelstop_clocks (l r : String) (ty : Option String) (s : SimState) :
    ({ add_event .ON_DUTY (1/2) l r ty s with
        miles_since_fuel := 0 } : SimState).cycle_used = s.cycle_used + 1/2 ∧
    ({ add_event .ON_DUTY (1/2) l r ty s with
        miles_since_fuel := 0 } : SimState).drive_clock = s.drive_clock ∧
    ({ add_event .ON_DUTY (1/2) l r ty s with
        miles_since_fuel := 0 } : SimState).window_clock = s.window_clock + 1/2 ∧
    ({ add_event .ON_DUTY (1/2) l r ty s with
        miles_since_fuel := 0 } : SimState).since_break_clock = 0 ∧
    ({ add_event .ON_DUTY (1/2) l r ty s with
        miles_since_fuel := 0 } : SimState).miles_since_fuel = 0 := by
  obtain ⟨h1, h2, h3, h4⟩ := add_event_onduty_clocks (1/2) l r ty s
  have hm : max (0:ℚ) (1/2) = 1/2 := max_eq_right (by norm_num)
  refine ⟨?_, ?_, ?_, ?_, rfl⟩
  · show (add_event .ON_DUTY (1/2) l r ty s).cycle_used = _
    rw [h1, hm]
  · show (add_event .ON_DUTY (1/2) l r ty s).drive_clock = _
    rw [h3]
  · show (add_event .ON_DUTY (1/2) l r ty s).window_clock = _
    rw [h2, hm]
  · show (add_event .ON_DUTY (1/2) l r ty s).since_break_clock = _
    rw [h4, hm]
    norm_num

/-! ### The termination measure -/

/-- Potential counting the rest/fuel inserts still possible before the next
DRIVING event; weighted so every exhausted-case insert strictly decreases
it. -/
def phi (s : SimState) : ℕ :=
  (if BREAK_REQUIRED_AFTER - s.since_break_clock ≤ 1/1000 then 8 else 0) +
  (if (FUEL_INTERVAL - s.miles_since_fuel) / AVG_SPEED ≤ 1/1000 then 4 else 0) +
  (if MAX_DRIVE_TIME - s.drive_clock ≤ 1/1000
      ∨ MAX_DUTY_WINDOW - s.window_clock ≤ 1/1000 then 2 else 0) +
  (if MAX_CYCLE_LIMIT - s.cycle_used ≤ 1/1000 then 1 else 0)

lemma phi_le (s : SimState) : phi s ≤ 15 := by
  unfold phi
  split_ifs <;> norm_num

/-- Every exhausted-case insert strictly decreases the potential. -/
lemma phi_exhaustedInsert_lt (pos : String) (s : SimState)
    (hx : max 0 (MAX_CYCLE_LIMIT - s.cycle_used) ≤ 1/1000
        ∨ max 0 (MAX_DRIVE_TIME - s.drive_clock) ≤ 1/1000
        ∨ max 0 (MAX_DUTY_WINDOW - s.window_clock) ≤ 1/1000
        ∨ max 0 (BREAK_REQUIRED_AFTER - s.since_break_clock) ≤ 1/1000
        ∨ max 0 ((FUEL_INTERVAL - s.miles_since_fuel) / AVG_SPEED) ≤ 1/1000) :
    phi (exhaustedInsert pos s) < phi s := by
  unfold exhaustedInsert
  split_ifs with h1 h2 h3 h4
  · -- 34-hour restart: full clock reset, fuel indicator unchanged
    obtain ⟨hcy, hdr, hw, hsb⟩ := restart_clocks pos REMARK_RESTART (some STOP_RESTART) s
    have hmsf := add_event_msf .OFF_DUTY RESTART_34 pos REMARK_RESTART (some STOP_RESTART) s
    rw [max_milli] at h1
    unfold phi
    rw [hcy, hdr, hw, hsb, hmsf]
    rw [if_neg (by norm_num [BREAK_REQUIRED_AFTER] : ¬(BREAK_REQUIRED_AFTER - (0:ℚ) ≤ 1/1000))]
    rw [if_neg (by norm_num [MAX_DRIVE_TIME, MAX_DUTY_WINDOW] :
      ¬(MAX_DRIVE_TIME - (0:ℚ) ≤ 1/1000 ∨ MAX_DUTY_WINDOW - (0:ℚ) ≤ 1/1000))]
    rw [if_neg (by norm_num [MAX_CYCLE_LIMIT] : ¬(MAX_CYCLE_LIMIT - (0:ℚ) ≤ 1/1000))]
    rw [if_pos h1]
    split_ifs <;> omega
  · -- 10-hour sleeper: drive/window/break reset, cycle and fuel unchanged
    obtain ⟨hcy, hdr, hw, hsb⟩ := sleeper_clocks pos REMARK_SLEEPER (some STOP_SLEEP) s
    have hmsf := add_event_msf .SLEEPER SLEEPER_REST pos REMARK_SLEEPER (some STOP_SLEEP) s
    rw [max_milli] at h1
    simp only [max_milli] at h2
    unfold phi
    rw [hcy, hdr, hw, hsb, hmsf]
    rw [if_neg (by norm_num [BREAK_REQUIRED_AFTER] : ¬(BREAK_REQUIRED_AFTER - (0:ℚ) ≤ 1/1000))]
    rw [if_neg (by norm_num [MAX_DRIVE_TIME, MAX_DUTY_WINDOW] :
      ¬(MAX_DRIVE_TIME - (0:ℚ) ≤ 1/1000 ∨ MAX_DUTY_WINDOW - (0:ℚ) ≤ 1/1000))]
    rw [if_neg h1, if_pos h2]
    split_ifs <;> omega
  · -- 30-minute break: break reset, window grows by half an hour
    obtain ⟨hcy, hdr, hw, hsb⟩ := break_clocks pos REMARK_BREAK (some STOP_BREAK) s
    have hmsf := add_event_msf .OFF_DUTY MIN_BREAK pos REMARK_BREAK (some STOP_BREAK) s
    rw [max_milli] at h1 h3
    simp only [max_milli] at h2
    unfold phi
    rw [hcy, hdr, hw, hsb, hmsf]
    rw [if_neg (by norm_num [BREAK_REQUIRED_AFTER] : ¬(BREAK_REQUIRED_AFTER - (0:ℚ) ≤ 1/1000))]
    rw [if_neg h1, if_pos h3, if_neg h2]
    split_ifs <;> omega
  · -- fuel stop: fuel reset, cycle and window grow by half an hour
    obtain ⟨hcy, hdr, hw, hsb, hmsf⟩ := fuelstop_clocks pos REMARK_FUEL (some STOP_FUEL) s
    rw [max_milli] at h1 h3 h4
    simp only [max_milli] at h2
    unfold phi
    rw [hcy, hdr, hw, hsb, hmsf]
    rw [if_neg (by norm_num [BREAK_REQUIRED_AFTER] : ¬(BREAK_REQUIRED_AFTER - (0:ℚ) ≤ 1/1000))]
    rw [if_neg (by norm_num [FUEL_INTERVAL, AVG_SPEED] :
      ¬((FUEL_INTERVAL - (0:ℚ)) / AVG_SPEED ≤ 1/1000))]
    rw [if_neg h3, if_pos h4, if_neg h2, if_neg h1]
    split_ifs <;> omega
  · -- no branch fires: contradicts the disjunction
    rcases hx with h | h | h | h | h
    · exact absurd h h1
    · exact absurd (Or.inl h) h2
    · exact absurd (Or.inr h) h2
    · exact absurd h h3
    · exact absurd h h4

/-- When the loop cannot drive at all, one of the four insert branches
necessarily fires. -/
lemma exhausted_branch_fires (r : ℚ) (s : SimState) (hr : r > 1/2)
    (hl : limiting_time r s ≤ 1/1000) :
    max 0 (MAX_CYCLE_LIMIT - s.cycle_used) ≤ 1/1000
    ∨ max 0 (MAX_DRIVE_TIME - s.drive_clock) ≤ 1/1000
    ∨ max 0 (MAX_DUTY_WINDOW - s.window_clock) ≤ 1/1000
    ∨ max 0 (BREAK_REQUIRED_AFTER - s.since_break_clock) ≤ 1/1000
    ∨ max 0 ((FUEL_INTERVAL - s.miles_since_fuel) / AVG_SPEED) ≤ 1/1000 := by
  by_contra hcon
  push_neg at hcon
  obtain ⟨n1, n2, n3, n4, n5⟩ := hcon
  have hfin : 1/1000 < r / AVG_SPEED := by
    rw [lt_div_iff₀ avg_speed_pos]
    norm_num [AVG_SPEED]
    linarith
  have hgt : 1/1000 < limiting_time r s := by
    unfold limiting_time
    exact lt_min hfin (lt_min n2 (lt_min n3 (lt_min n4 (lt_min n1 n5))))
  linarith

/-- Distance component of the termination measure. -/
def distM (r : ℚ) : ℕ := (⌊r * 200 / 11⌋).toNat

/-- The combined measure: lexicographic (distance, potential) packed into
one natural number, using `phi ≤ 15`. -/
def mu (r : ℚ) (s : SimState) : ℕ := 16 * distM r + phi s

lemma distM_lt (r : ℚ) (s : SimState) (hr : r > 1/2)
    (hl : ¬ limiting_time r s ≤ 1/1000)
    (hnf : ¬ limiting_time r s ≥ r / AVG_SPEED) :
    distM (remainingAfter r s) < distM r := by
  push_neg at hl hnf
  have hre : remainingAfter r s = r - limiting_time r s * AVG_SPEED := by
    unfold remainingAfter
    rw [if_neg (not_le.mpr hnf)]
  have hm : 11/200 < limiting_time r s * AVG_SPEED := by
    have h0 : (1:ℚ)/1000 * AVG_SPEED < limiting_time r s * AVG_SPEED :=
      mul_lt_mul_of_pos_right hl avg_speed_pos
    norm_num [AVG_SPEED] at h0 ⊢
    linarith
  have hkey : (r - limiting_time r s * AVG_SPEED) * 200 / 11 < r * 200 / 11 - 1 := by
    have h11 : (0:ℚ) < 11 := by norm_num
    rw [div_lt_iff₀ h11]
    have hcancel : r * 200 / 11 * 11 = r * 200 := div_mul_cancel₀ _ (by norm_num)
    nlinarith
  have f1 : (((⌊(r - limiting_time r s * AVG_SPEED) * 200 / 11⌋ : ℤ)) : ℚ) ≤
      (r - limiting_time r s * AVG_SPEED) * 200 / 11 := Int.floor_le _
  have f2 : (r * 200 / 11 : ℚ) - 1 < ((⌊r * 200 / 11⌋ : ℤ) : ℚ) := Int.sub_one_lt_floor _
  have hint : ⌊(r - limiting_time r s * AVG_SPEED) * 200 / 11⌋ < ⌊r * 200 / 11⌋ := by
    exact_mod_cast f1.trans_lt (hkey.trans f2)
  have hpos : 0 < ⌊r * 200 / 11⌋ := by
    have h9 : (9:ℚ) ≤ r * 200 / 11 := by
      rw [le_div_iff₀ (by norm_num : (0:ℚ) < 11)]
      linarith
    have := Int.le_floor.mpr (by exact_mod_cast h9 : ((9:ℤ) : ℚ) ≤ r * 200 / 11)
    omega
  unfold distM
  rw [hre]
  omega

/-- Sufficient fuel makes the loop return a value: the drive branch strictly
decreases the distance component; the exhausted branch keeps the distance
and strictly decreases the potential. -/
lemma loop_isSome_of_mu (posOpt : ℚ → Option String) (sc : String) (tm : ℚ)
    (nm : String) :
    ∀ (k : ℕ) (r d : ℚ) (s : SimState), mu r s < k →
      ∃ n, (drive_leg_loop posOpt sc tm nm n r d s).isSome := by
  intro k
  induction k with
  | zero =>
    intro r d s h
    exact absurd h (Nat.not_lt_zero _)
  | succ k ih =>
    intro r d s h
    by_cases hr : r > 1/2
    · by_cases hl : limiting_time r s ≤ 1/1000
      · have hx := exhausted_branch_fires r s hr hl
        have hphi := phi_exhaustedInsert_lt
          ((posOpt (if tm > 0 then d / tm else 0)).getD sc) s hx
        have hmu : mu r (exhaustedInsert
            ((posOpt (if tm > 0 then d / tm else 0)).getD sc) s) < k := by
          unfold mu at h ⊢
          omega
        obtain ⟨n, hn⟩ := ih r d _ hmu
        refine ⟨n + 1, ?_⟩
        rw [drive_leg_loop_exhausted posOpt sc tm nm n r d s hr hl]
        exact hn
      · by_cases hfin : limiting_time r s ≥ r / AVG_SPEED
        · refine ⟨2, ?_⟩
          rw [drive_leg_loop_drive posOpt sc tm nm 1 r d s hr hl]
          rw [Option.isSome_map']
          have hra : remainingAfter r s = 0 := by
            unfold remainingAfter
            rw [if_pos hfin]
          rw [hra]
          rw [drive_leg_loop_done posOpt sc tm nm 0 0 _ _ (by norm_num)]
          rfl
        · have hdm := distM_lt r s hr hl hfin
          have hmu : mu (remainingAfter r s)
              (if remainingAfter r s > 1/2 then
                postDriveInsert
                  ((posOpt (if tm > 0 then (d + milesDriven r s) / tm else 1)).getD
                    ((posOpt (if tm > 0 then d / tm else 0)).getD sc))
                  (afterDrive nm r s)
               else afterDrive nm r s) < k := by
            have hphi := phi_le
              (if remainingAfter r s > 1/2 then
                postDriveInsert
                  ((posOpt (if tm > 0 then (d + milesDriven r s) / tm else 1)).getD
                    ((posOpt (if tm > 0 then d / tm else 0)).getD sc))
                  (afterDrive nm r s)
               else afterDrive nm r s)
            unfold mu at h ⊢
            omega
          obtain ⟨n, hn⟩ := ih (remainingAfter r s) (d + milesDriven r s) _ hmu
          refine ⟨n + 1, ?_⟩
          rw [drive_leg_loop_drive posOpt sc tm nm n r d s hr hl]
          rw [Option.isSome_map']
          exact hn
    · exact ⟨1, by rw [drive_leg_loop_done posOpt sc tm nm 0 r d s hr]; rfl⟩

/-! ### Interpolation lemmas -/

lemma pathSegLens_sum_nonneg (d : Point → Point → ℚ) (hnn : ∀ p q, 0 ≤ d p q) :
    ∀ coords : List Point, 0 ≤ (pathSegLens d coords).sum
  | [] => by simp [pathSegLens]
  | [p] => by simp [pathSegLens]
  | p :: q :: rest => by
    simp only [pathSegLens, List.sum_cons]
    have h1 := pathSegLens_sum_nonneg d hnn (q :: rest)
    have h2 := hnn p q
    linarith

/-- A zero-length tail means all its points coincide with its head. -/
lemma zero_chain (d : Point → Point → ℚ) (hnn : ∀ p q, 0 ≤ d p q)
    (hdef : ∀ p q, d p q = 0 → p = q) :
    ∀ (p : Point) (rest : List Point), (pathSegLens d (p :: rest)).sum = 0 →
      (p :: rest).getLast? = some p
  | _, [], _ => by simp
  | p, q :: rest, h => by
    simp only [pathSegLens, List.sum_cons] at h
    have h1 : 0 ≤ d p q := hnn p q
    have h2 : 0 ≤ (pathSegLens d (q :: rest)).sum := pathSegLens_sum_nonneg d hnn _
    have hd0 : d p q = 0 := by linarith
    have hs0 : (pathSegLens d (q :: rest)).sum = 0 := by linarith
    have hpq : p = q := hdef p q hd0
    rw [List.getLast?_cons_cons, zero_chain d hnn hdef q rest hs0, hpq]

lemma walk_zero (d : Point → Point → ℚ) (hnn : ∀ p q, 0 ≤ d p q)
    (p q : Point) (rest : List Point) :
    walkSegs d 0 0 (p :: q :: rest) = some p := by
  simp only [walkSegs]
  rw [if_pos (by simpa using hnn p q : (0:ℚ) + d p q ≥ 0)]
  split_ifs with h
  · simp
  · simp

lemma walk_total (d : Point → Point → ℚ) (hnn : ∀ p q, 0 ≤ d p q)
    (hdef : ∀ p q, d p q = 0 → p = q) :
    ∀ (coords : List Point) (cur : ℚ),
      walkSegs d (cur + (pathSegLens d coords).sum) cur coords = coords.getLast?
  | [], _ => by simp [walkSegs]
  | [p], _ => by simp [walkSegs]
  | p :: q :: rest, cur => by
    have hTnn : 0 ≤ (pathSegLens d (q :: rest)).sum := pathSegLens_sum_nonneg d hnn _
    have hdnn : 0 ≤ d p q := hnn p q
    by_cases hT : (pathSegLens d (q :: rest)).sum = 0
    · simp only [walkSegs]
      rw [if_pos (by simp only [pathSegLens, List.sum_cons]; linarith :
        cur + d p q ≥ cur + (pathSegLens d (p :: q :: rest)).sum)]
      rw [List.getLast?_cons_cons, zero_chain d hnn hdef q rest hT]
      split_ifs with hL
      · have hnum : cur + (pathSegLens d (p :: q :: rest)).sum - cur = d p q := by
          simp only [pathSegLens, List.sum_cons]
          rw [hT]
          ring
        rw [hnum, div_self (ne_of_gt hL)]
        simp only [mul_one, Option.some.injEq]
        exact Prod.ext (by ring) (by ring)
      · have hd0 : d p q = 0 := le_antisymm (not_lt.mp hL) hdnn
        have hpq := hdef p q hd0
        subst hpq
        simp
    · have hTpos : 0 < (pathSegLens d (q :: rest)).sum := lt_of_le_of_ne hTnn (Ne.symm hT)
      simp only [walkSegs]
      rw [if_neg (by
        simp only [pathSegLens, List.sum_cons]
        intro hcon
        rw [ge_iff_le, add_le_add_iff_left] at hcon
        linarith)]
      rw [List.getLast?_cons_cons]
      rw [show cur + (pathSegLens d (p :: q :: rest)).sum =
        (cur + d p q) + (pathSegLens d (q :: rest)).sum from by
          simp only [pathSegLens, List.sum_cons]; ring]
      exact walk_total d hnn hdef (q :: rest) (cur + d p q)

lemma interpolate_zero (d : Point → Point → ℚ) (hnn : ∀ p q, 0 ≤ d p q) :
    ∀ coords : List Point, interpolate_along_route d coords 0 = coords.head?
  | [] => rfl
  | [_] => rfl
  | p :: q :: rest => by
    simp only [interpolate_along_route]
    rw [show max 0 (min 1 (0:ℚ)) = 0 from by norm_num]
    split_ifs with h
    · rfl
    · rw [zero_mul, walk_zero d hnn p q rest]
      rfl

lemma interpolate_one (d : Point → Point → ℚ) (hnn : ∀ p q, 0 ≤ d p q)
    (hdef : ∀ p q, d p q = 0 → p = q) :
    ∀ coords : List Point, interpolate_along_route d coords 1 = coords.getLast?
  | [] => rfl
  | [_] => rfl
  | p :: q :: rest => by
    simp only [interpolate_along_route]
    rw [show max 0 (min 1 (1:ℚ)) = 1 from by norm_num]
    split_ifs with h
    · rw [zero_chain d hnn hdef p (q :: rest) h]
    · rw [one_mul]
      have := walk_total d hnn hdef (p :: q :: rest) 0
      rw [zero_add] at this
      exact this

/-! ### Inversion of the orchestrator -/

lemma run_trip_inv (interp : List Point → ℚ → Option String)
    (curr pick drop : String) (leg1 leg2 : RouteLeg) (cyc : ℚ) (fuel : ℕ)
    (s : SimState) (snaps : List (SimState × ℚ))
    (h : run_trip interp curr pick drop leg1 leg2 cyc fuel = some (s, snaps)) :
    ∃ s2 snaps1 s4 snaps2,
      drive_leg (interp leg1.geometry) curr leg1.distance_miles LEG1_NAME fuel
        (add_event .ON_DUTY (1/4) curr REMARK_INSPECTION (some STOP_INSPECTION)
          (init_state curr cyc)) = some (s2, snaps1) ∧
      drive_leg (interp leg2.geometry) pick leg2.distance_miles LEG2_NAME fuel
        (add_event .ON_DUTY LOAD_UNLOAD_TIME pick REMARK_LOADING
          (some STOP_PICKUP) s2) = some (s4, snaps2) ∧
      s = { add_event .ON_DUTY LOAD_UNLOAD_TIME drop REMARK_UNLOADING
              (some STOP_DROPOFF) s4 with
            stops := (add_event .ON_DUTY LOAD_UNLOAD_TIME drop REMARK_UNLOADING
                (some STOP_DROPOFF) s4).stops ++
              [⟨drop, STOP_END, REMARK_TRIP_END,
                (add_event .ON_DUTY LOAD_UNLOAD_TIME drop REMARK_UNLOADING
                  (some STOP_DROPOFF) s4).current_time, 0⟩] } ∧
      snaps = snaps1 ++ snaps2 := by
  simp only [run_trip] at h
  split at h
  · exact Option.noConfusion h
  rename_i s2 snaps1 hd1
  split at h
  · exact Option.noConfusion h
  rename_i s4 snaps2 hd2
  injection h with h'
  obtain ⟨hs, hsn⟩ := Prod.mk.injEq _ _ _ _ |>.mp h'
  exact ⟨s2, snaps1, s4, snaps2, hd1, hd2, hs.symm, hsn.symm⟩

lemma calculate_schedule_ok_inv (interp : List Point → ℚ → Option String)
    (geocodeF : String → Option String)
    (routeF : String → String → Option RouteLeg)
    (a b c : String) (cyc : ℚ) (fuel : ℕ) (res : TripResult)
    (h : calculate_schedule interp geocodeF routeF a b c cyc fuel =
      some (.ok res)) :
    ∃ ca cb cc leg1 leg2 s snaps,
      geocodeF a = some ca ∧ geocodeF b = some cb ∧ geocodeF c = some cc ∧
      routeF ca cb = some leg1 ∧ routeF cb cc = some leg2 ∧
      run_trip interp ca cb cc leg1 leg2 cyc fuel = some (s, snaps) ∧
      res = build_result leg1 leg2 s := by
  simp only [calculate_schedule] at h
  split at h
  · exact absurd (Option.some.injEq _ _ |>.mp h) (by simp)
  rename_i ca hga
  split at h
  · exact absurd (Option.some.injEq _ _ |>.mp h) (by simp)
  rename_i cb hgb
  split at h
  · exact absurd (Option.some.injEq _ _ |>.mp h) (by simp)
  rename_i cc hgc
  split at h
  · exact absurd (Option.some.injEq _ _ |>.mp h) (by simp)
  rename_i leg1 hr1
  split at h
  · exact absurd (Option.some.injEq _ _ |>.mp h) (by simp)
  rename_i leg2 hr2
  split at h
  · exact Option.noConfusion h
  rename_i s snaps hrt
  injection h with h'
  injection h' with h''
  exact ⟨ca, cb, cc, leg1, leg2, s, snaps, hga, hgb, hgc, hr1, hr2, hrt, h''.symm⟩

lemma init_state_chained (curr : String) (cyc : ℚ) :
    ChainedState (init_state curr cyc) := by
  refine ⟨List.chain'_nil, ?_, ?_⟩
  · intro e he
    exact absurd he (List.not_mem_nil e)
  · intro e he
    exact Option.noConfusion he

lemma run_trip_chained (interp : List Point → ℚ → Option String)
    (curr pick drop : String) (leg1 leg2 : RouteLeg) (cyc : ℚ) (fuel : ℕ)
    (s : SimState) (snaps : List (SimState × ℚ))
    (h : run_trip interp curr pick drop leg1 leg2 cyc fuel = some (s, snaps)) :
    ChainedState s := by
  obtain ⟨s2, snaps1, s4, snaps2, hd1, hd2, hs, _⟩ :=
    run_trip_inv interp curr pick drop leg1 leg2 cyc fuel s snaps h
  subst hs
  apply chainedState_update_stops
  apply chainedState_add_event
  refine chainedState_loop (interp leg2.geometry) pick leg2.distance_miles
    LEG2_NAME fuel leg2.distance_miles 0 _ _ _ hd2 ?_
  apply chainedState_add_event
  refine chainedState_loop (interp leg1.geometry) curr leg1.distance_miles
    LEG1_NAME fuel leg1.distance_miles 0 _ _ _ hd1 ?_
  apply chainedState_add_event
  exact init_state_chained curr cyc

/-! ### From the chain to sortedness -/

lemma chain_le_of_mem :
    ∀ (a : LogEntry) (L : List LogEntry),
      List.Chain' (fun x y => x.endT = y.start) (a :: L) →
      (∀ e ∈ L, e.start ≤ e.endT) → ∀ b ∈ L, a.endT ≤ b.start
  | _, [], _, _, b, hb => absurd hb (List.not_mem_nil b)
  | a, c :: L, hch, hd, b, hb => by
    rw [List.chain'_cons] at hch
    obtain ⟨hac, hch⟩ := hch
    rcases List.mem_cons.mp hb with hb | hb
    · subst hb
      exact le_of_eq hac
    · have hcc : c.start ≤ c.endT := hd c (List.mem_cons_self c L)
      have hrec := chain_le_of_mem c L hch
        (fun e he => hd e (List.mem_cons_of_mem c he)) b hb
      calc a.endT = c.start := hac
        _ ≤ c.endT := hcc
        _ ≤ b.start := hrec

lemma chain_pairwise :
    ∀ L : List LogEntry,
      List.Chain' (fun x y => x.endT = y.start) L →
      (∀ e ∈ L, e.start ≤ e.endT) →
      List.Pairwise (fun x y => x.start ≤ y.start) L
  | [], _, _ => List.Pairwise.nil
  | a :: L, hch, hd => by
    rw [List.pairwise_cons]
    constructor
    · intro b hb
      have h1 : a.start ≤ a.endT := hd a (List.mem_cons_self a L)
      have h2 := chain_le_of_mem a L hch
        (fun e he => hd e (List.mem_cons_of_mem a he)) b hb
      linarith
    · exact chain_pairwise L hch.tail
        (fun e he => hd e (List.mem_cons_of_mem a he))

/-! ### Concrete fixtures for witnesses and counterexamples -/

/-- An interpolation collaborator with no geometry information: every lookup
falls back to the given coordinates (as with an empty polyline). -/
def noInterp : List Point → ℚ → Option String := fun _ _ => none

def CEX_CURR : String := "c"
def CEX_PICK : String := "p"
def CEX_DROP : String := "d"
def leg0 : RouteLeg := ⟨0, []⟩
def leg55 : RouteLeg := ⟨55, []⟩
def leg555 : RouteLeg := ⟨555, []⟩
def leg600 : RouteLeg := ⟨600, []⟩

/-- A geocoder resolving every name (to itself). -/
def geoOK : String → Option String := fun x => some x

/-- A geocoder resolving only the current location. -/
def geoPartial : String → Option String :=
  fun x => if x = CEX_CURR then some CEX_CURR else none

/-- A router producing a zero-length leg for every pair. -/
def routeTriv : String → String → Option RouteLeg := fun _ _ => some leg0

/-- Final state of the trivial trip (both legs of length zero). -/
def trivFinalState : SimState :=
  { current_time := 33/4, cycle_used := 9/4, drive_clock := 0
    window_clock := 9/4, since_break_clock := 0, miles_since_fuel := 0
    logs := [⟨.ON_DUTY, 6, 25/4, CEX_CURR, REMARK_INSPECTION⟩,
             ⟨.ON_DUTY, 25/4, 29/4, CEX_PICK, REMARK_LOADING⟩,
             ⟨.ON_DUTY, 29/4, 33/4, CEX_DROP, REMARK_UNLOADING⟩]
    stops := [⟨CEX_CURR, STOP_START, REMARK_TRIP_START, 6, 0⟩,
              ⟨CEX_CURR, STOP_INSPECTION, REMARK_INSPECTION, 6, 1/4⟩,
              ⟨CEX_PICK, STOP_PICKUP, REMARK_LOADING, 25/4, 1⟩,
              ⟨CEX_DROP, STOP_DROPOFF, REMARK_UNLOADING, 29/4, 1⟩,
              ⟨CEX_DROP, STOP_END, REMARK_TRIP_END, 33/4, 0⟩] }

/-- State right after the pre-trip inspection of the 55-mile example trip:
the state at which its only DRIVING entry begins. -/
def w1PreDrive : SimState :=
  { current_time := 25/4, cycle_used := 1/4, drive_clock := 0
    window_clock := 1/4, since_break_clock := 0, miles_since_fuel := 0
    logs := [⟨.ON_DUTY, 6, 25/4, CEX_CURR, REMARK_INSPECTION⟩]
    stops := [⟨CEX_CURR, STOP_START, REMARK_TRIP_START, 6, 0⟩,
              ⟨CEX_CURR, STOP_INSPECTION, REMARK_INSPECTION, 6, 1/4⟩] }

/-- Final state of the trip with a 55-mile first leg and a zero second leg. -/
def w1Final : SimState :=
  { current_time := 37/4, cycle_used := 13/4, drive_clock := 1
    window_clock := 13/4, since_break_clock := 0, miles_since_fuel := 55
    logs := [⟨.ON_DUTY, 6, 25/4, CEX_CURR, REMARK_INSPECTION⟩,
             ⟨.DRIVING, 25/4, 29/4, enRoute LEG1_NAME, REMARK_DRIVING⟩,
             ⟨.ON_DUTY, 29/4, 33/4, CEX_PICK, REMARK_LOADING⟩,
             ⟨.ON_DUTY, 33/4, 37/4, CEX_DROP, REMARK_UNLOADING⟩]
    stops := [⟨CEX_CURR, STOP_START, REMARK_TRIP_START, 6, 0⟩,
              ⟨CEX_CURR, STOP_INSPECTION, REMARK_INSPECTION, 6, 1/4⟩,
              ⟨CEX_PICK, STOP_PICKUP, REMARK_LOADING, 29/4, 1⟩,
              ⟨CEX_DROP, STOP_DROPOFF, REMARK_UNLOADING, 33/4, 1⟩,
              ⟨CEX_DROP, STOP_END, REMARK_TRIP_END, 37/4, 0⟩] }

/-- State after driving the 55-mile leg from `w1PreDrive`. -/
def w1AfterLeg : SimState :=
  { current_time := 29/4, cycle_used := 5/4, drive_clock := 1
    window_clock := 5/4, since_break_clock := 1, miles_since_fuel := 55
    logs := [⟨.ON_DUTY, 6, 25/4, CEX_CURR, REMARK_INSPECTION⟩,
             ⟨.DRIVING, 25/4, 29/4, enRoute LEG1_NAME, REMARK_DRIVING⟩]
    stops := [⟨CEX_CURR, STOP_START, REMARK_TRIP_START, 6, 0⟩,
              ⟨CEX_CURR, STOP_INSPECTION, REMARK_INSPECTION, 6, 1/4⟩] }

/-- A state whose 70-hour cycle budget is fully used. -/
def cycleFullState : SimState :=
  { current_time := 6, cycle_used := 70, drive_clock := 0, window_clock := 0
    since_break_clock := 0, miles_since_fuel := 0, logs := [], stops := [] }

/-! ### The claims -/

/-- C3: `add_event(status, duration, location, remark, stopType?)` is a
total operation: it clamps the duration to ≥ 0, appends one log entry
spanning `[current_time, current_time + duration)` (recorded rounded to 3
decimals), appends a stop exactly when a stop type is given, always advances
`current_time` by the clamped duration, and updates the counters by status:
DRIVING adds `d` to the drive, break, cycle and window clocks; ON_DUTY adds
`d` to the cycle and window clocks and resets the break clock when
`d ≥ 0.5`; OFF_DUTY/SLEEPER adds `d` only to the window clock, resets the
break clock when `d ≥ 0.5`, resets the drive and window clocks when
`d ≥ 10`, and resets the cycle when `d ≥ 34`.  `miles_since_fuel` is never
modified. -/
theorem add_event_spec :
    ∀ (status : DutyStatus) (duration : ℚ) (loc rem : String)
      (ty : Option String) (s : SimState),
      (add_event status duration loc rem ty s).current_time =
        s.current_time + max 0 duration ∧
      (add_event status duration loc rem ty s).logs = s.logs ++
        [⟨status, round3 s.current_time,
          round3 (s.current_time + max 0 duration), loc, rem⟩] ∧
      (∀ t, ty = some t → (add_event status duration loc rem ty s).stops =
        s.stops ++
          [⟨loc, t, rem, round3 s.current_time, round3 (max 0 duration)⟩]) ∧
      (ty = none → (add_event status duration loc rem ty s).stops = s.stops) ∧
      (add_event status duration loc rem ty s).miles_since_fuel =
        s.miles_since_fuel ∧
      (status = .DRIVING →
        (add_event status duration loc rem ty s).drive_clock =
          s.drive_clock + max 0 duration ∧
        (add_event status duration loc rem ty s).since_break_clock =
          s.since_break_clock + max 0 duration ∧
        (add_event status duration loc rem ty s).cycle_used =
          s.cycle_used + max 0 duration ∧
        (add_event status duration loc rem ty s).window_clock =
          s.window_clock + max 0 duration) ∧
      (status = .ON_DUTY →
        (add_event status duration loc rem ty s).cycle_used =
          s.cycle_used + max 0 duration ∧
        (add_event status duration loc rem ty s).window_clock =
          s.window_clock + max 0 duration ∧
        (add_event status duration loc rem ty s).drive_clock = s.drive_clock ∧
        (add_event status duration loc rem ty s).since_break_clock =
          (if 1/2 ≤ max 0 duration then 0 else s.since_break_clock)) ∧
      ((status = .OFF_DUTY ∨ status = .SLEEPER) →
        (add_event status duration loc rem ty s).cycle_used =
          (if 34 ≤ max 0 duration then 0 else s.cycle_used) ∧
        (add_event status duration loc rem ty s).drive_clock =
          (if 10 ≤ max 0 duration then 0 else s.drive_clock) ∧
        (add_event status duration loc rem ty s).window_clock =
          (if 10 ≤ max 0 duration then 0
           else s.window_clock + max 0 duration) ∧
        (add_event status duration loc rem ty s).since_break_clock =
          (if 1/2 ≤ max 0 duration then 0 else s.since_break_clock)) := by
  intro status duration loc rem ty s
  refine ⟨add_event_current_time status duration loc rem ty s,
    add_event_logs status duration loc rem ty s, ?_, ?_,
    add_event_msf status duration loc rem ty s, ?_, ?_, ?_⟩
  · intro t ht
    subst ht
    exact add_event_stops_some status duration loc rem t s
  · intro ht
    subst ht
    exact add_event_stops_none status duration loc rem s
  · intro hst
    subst hst
    exact add_event_driving_clocks duration loc rem ty s
  · intro hst
    subst hst
    exact add_event_onduty_clocks duration loc rem ty s
  · intro hst
    exact add_event_off_clocks status hst duration loc rem ty s

theorem add_event_spec_witness :
    (add_event .ON_DUTY 1 CEX_PICK REMARK_LOADING (some STOP_PICKUP)
      w1PreDrive).cycle_used = w1PreDrive.cycle_used + max 0 1 ∧
    (add_event .ON_DUTY 1 CEX_PICK REMARK_LOADING (some STOP_PICKUP)
      w1PreDrive).miles_since_fuel = w1PreDrive.miles_since_fuel :=
  ⟨((add_event_spec .ON_DUTY 1 CEX_PICK REMARK_LOADING (some STOP_PICKUP)
      w1PreDrive).2.2.2.2.2.2.1 rfl).1,
   (add_event_spec .ON_DUTY 1 CEX_PICK REMARK_LOADING (some STOP_PICKUP)
      w1PreDrive).2.2.2.2.1⟩

/-- C9: the `drive_leg` loop terminates for every leg distance, geometry and
starting state: some fuel value makes the fuel-indexed loop return a result.
Every iteration either strictly decreases the remaining distance or inserts
a rest/fuel event that strictly decreases the insert potential `phi`. -/
theorem drive_leg_terminates :
    ∀ (posOpt : ℚ → Option String) (sc : String) (tm : ℚ) (nm : String)
      (s : SimState), ∃ fuel, (drive_leg posOpt sc tm nm fuel s).isSome := by
  intro posOpt sc tm nm s
  exact loop_isSome_of_mu posOpt sc tm nm (mu tm s + 1) tm 0 s (Nat.lt_succ_self _)

/-- C8: for every leg driven by `drive_leg`, the sum of raw durations of the
DRIVING entries emitted for that leg times the 55 mph average speed equals
the leg distance within the 0.5-mile tolerance; the snapshot list counts
exactly the DRIVING entries appended. -/
theorem leg_driving_distance :
    ∀ (posOpt : ℚ → Option String) (sc : String) (tm : ℚ) (nm : String)
      (fuel : ℕ) (s s' : SimState) (snaps : List (SimState × ℚ)),
      0 ≤ tm →
      drive_leg posOpt sc tm nm fuel s = some (s', snaps) →
      |tm - AVG_SPEED * (snaps.map Prod.snd).sum| ≤ 1/2 ∧
      s'.logs.countP (fun l => l.status == .DRIVING) =
        s.logs.countP (fun l => l.status == .DRIVING) + snaps.length := by
  intro posOpt sc tm nm fuel s s' snaps h0 h
  obtain ⟨rfin, p1, p2, p3, p4⟩ :=
    loop_distance posOpt sc tm nm fuel tm 0 s s' snaps h h0
  refine ⟨?_, p4⟩
  rw [p3, show tm - (tm - rfin) = rfin from by ring, abs_of_nonneg p1]
  exact p2

set_option maxRecDepth 100000 in
theorem leg_driving_distance_witness :
    |(55:ℚ) - AVG_SPEED * (([((w1PreDrive, (1:ℚ)))].map Prod.snd).sum)| ≤ 1/2 ∧
    w1AfterLeg.logs.countP (fun l => l.status == .DRIVING) =
      w1PreDrive.logs.countP (fun l => l.status == .DRIVING) +
        [((w1PreDrive, (1:ℚ)))].length :=
  by
  have h : drive_leg (noInterp []) CEX_CURR 55 LEG1_NAME 10 w1PreDrive =
      some (w1AfterLeg, [(w1PreDrive, 1)]) := by with_unfolding_all rfl
  exact leg_driving_distance (noInterp []) CEX_CURR 55 LEG1_NAME 10 w1PreDrive
    w1AfterLeg [(w1PreDrive, 1)] (by norm_num) h

/-- C1: at the instant each DRIVING log entry begins (the snapshot state
just before the entry is recorded), `drive_clock ≤ 11`,
`window_clock ≤ 14`, `since_break_clock ≤ 8`, `cycle_used ≤ 70`, and
`miles_since_fuel` is bounded by 1000 within the 0.5-mile tolerance — for
every DRIVING entry produced by `drive_leg` on either leg, any leg
distances and geometries, and any seed `cycle_used_input ≥ 0`. -/
theorem driving_entry_clock_invariants :
    ∀ (interp : List Point → ℚ → Option String) (curr pick drop : String)
      (leg1 leg2 : RouteLeg) (cycle_used_input : ℚ) (fuel : ℕ)
      (s : SimState) (snaps : List (SimState × ℚ)),
      0 ≤ cycle_used_input →
      run_trip interp curr pick drop leg1 leg2 cycle_used_input fuel =
        some (s, snaps) →
      ∀ t ∈ snaps,
        t.1.drive_clock ≤ 11 ∧ t.1.window_clock ≤ 14 ∧
        t.1.since_break_clock ≤ 8 ∧ t.1.cycle_used ≤ 70 ∧
        t.1.miles_since_fuel ≤ 1000 + 1/2 := by
  intro interp curr pick drop leg1 leg2 cyc fuel s snaps _hcyc h t ht
  obtain ⟨s2, snaps1, s4, snaps2, hd1, hd2, _, hsn⟩ :=
    run_trip_inv interp curr pick drop leg1 leg2 cyc fuel s snaps h
  subst hsn
  rcases List.mem_append.mp ht with ht | ht
  · exact loop_snaps_ok (interp leg1.geometry) curr leg1.distance_miles
      LEG1_NAME fuel leg1.distance_miles 0 _ s2 snaps1 hd1 t ht
  · exact loop_snaps_ok (interp leg2.geometry) pick leg2.distance_miles
      LEG2_NAME fuel leg2.distance_miles 0 _ s4 snaps2 hd2 t ht

set_option maxRecDepth 100000 in
theorem driving_entry_clock_invariants_witness :
    w1PreDrive.drive_clock ≤ 11 ∧ w1PreDrive.window_clock ≤ 14 ∧
    w1PreDrive.since_break_clock ≤ 8 ∧ w1PreDrive.cycle_used ≤ 70 ∧
    w1PreDrive.miles_since_fuel ≤ 1000 + 1/2 :=
  by
  have h : run_trip noInterp CEX_CURR CEX_PICK CEX_DROP leg55 leg0 0 10 =
      some (w1Final, [(w1PreDrive, 1)]) := by with_unfolding_all rfl
  exact driving_entry_clock_invariants noInterp CEX_CURR CEX_PICK CEX_DROP
    leg55 leg0 0 10 w1Final [(w1PreDrive, 1)] (by norm_num) h
    (w1PreDrive, 1) (List.mem_singleton.mpr rfl)

/-- C2: the logs of every successful trip computation are sorted by
`start`, consecutive entries satisfy `end[i] = start[i+1]` (as recorded,
after the 3-decimal rounding of `add_event`), and no entry has
`end < start`. -/
theorem logs_sorted_chained :
    ∀ (interp : List Point → ℚ → Option String)
      (geocodeF : String → Option String)
      (routeF : String → String → Option RouteLeg)
      (a b c : String) (cyc : ℚ) (fuel : ℕ) (res : TripResult),
      calculate_schedule interp geocodeF routeF a b c cyc fuel =
        some (.ok res) →
      List.Chain' (fun e1 e2 => e1.endT = e2.start) res.logs ∧
      List.Pairwise (fun e1 e2 => e1.start ≤ e2.start) res.logs ∧
      ∀ e ∈ res.logs, e.start ≤ e.endT := by
  intro interp geocodeF routeF a b c cyc fuel res h
  obtain ⟨ca, cb, cc, leg1, leg2, s, snaps, _, _, _, _, _, hrt, hres⟩ :=
    calculate_schedule_ok_inv interp geocodeF routeF a b c cyc fuel res h
  subst hres
  obtain ⟨h1, h2, _⟩ :=
    run_trip_chained interp ca cb cc leg1 leg2 cyc fuel s snaps hrt
  exact ⟨h1, chain_pairwise s.logs h1 h2, h2⟩

set_option maxRecDepth 100000 in
theorem logs_sorted_chained_witness :
    List.Chain' (fun e1 e2 => e1.endT = e2.start)
      (build_result leg0 leg0 trivFinalState).logs := by
  have h : calculate_schedule noInterp geoOK routeTriv CEX_CURR CEX_PICK
      CEX_DROP 0 5 = some (.ok (build_result leg0 leg0 trivFinalState)) := by
    with_unfolding_all rfl
  exact (logs_sorted_chained noInterp geoOK routeTriv CEX_CURR CEX_PICK
    CEX_DROP 0 5 (build_result leg0 leg0 trivFinalState) h).1

/-- C4: in the exhausted case (`limiting_time ≤ 0.001`) exactly one
rest/fuel event is inserted, chosen with the priority cycle → drive/window →
break → fuel; the fuel branch also resets `miles_since_fuel`; the loop then
re-enters with the same remaining distance.  The second need-check after a
DRIVING event that does not finish the leg uses the different priority fuel
→ cycle → drive/window → break and inserts at most one event. -/
theorem insert_priority_order :
    ∀ (pos : String) (s : SimState),
      (max 0 (MAX_CYCLE_LIMIT - s.cycle_used) ≤ 1/1000 →
        exhaustedInsert pos s =
          add_event .OFF_DUTY RESTART_34 pos REMARK_RESTART
            (some STOP_RESTART) s) ∧
      (¬ max 0 (MAX_CYCLE_LIMIT - s.cycle_used) ≤ 1/1000 →
        (max 0 (MAX_DRIVE_TIME - s.drive_clock) ≤ 1/1000 ∨
          max 0 (MAX_DUTY_WINDOW - s.window_clock) ≤ 1/1000) →
        exhaustedInsert pos s =
          add_event .SLEEPER SLEEPER_REST pos REMARK_SLEEPER
            (some STOP_SLEEP) s) ∧
      (¬ max 0 (MAX_CYCLE_LIMIT - s.cycle_used) ≤ 1/1000 →
        ¬ (max 0 (MAX_DRIVE_TIME - s.drive_clock) ≤ 1/1000 ∨
          max 0 (MAX_DUTY_WINDOW - s.window_clock) ≤ 1/1000) →
        max 0 (BREAK_REQUIRED_AFTER - s.since_break_clock) ≤ 1/1000 →
        exhaustedInsert pos s =
          add_event .OFF_DUTY MIN_BREAK pos REMARK_BREAK (some STOP_BREAK) s) ∧
      (¬ max 0 (MAX_CYCLE_LIMIT - s.cycle_used) ≤ 1/1000 →
        ¬ (max 0 (MAX_DRIVE_TIME - s.drive_clock) ≤ 1/1000 ∨
          max 0 (MAX_DUTY_WINDOW - s.window_clock) ≤ 1/1000) →
        ¬ max 0 (BREAK_REQUIRED_AFTER - s.since_break_clock) ≤ 1/1000 →
        max 0 ((FUEL_INTERVAL - s.miles_since_fuel) / AVG_SPEED) ≤ 1/1000 →
        exhaustedInsert pos s =
          { add_event .ON_DUTY (1/2) pos REMARK_FUEL (some STOP_FUEL) s with
            miles_since_fuel := 0 }) ∧
      (∀ (posOpt : ℚ → Option String) (sc : String) (tm : ℚ) (nm : String)
        (fuel : ℕ) (r d : ℚ),
        r > 1/2 → limiting_time r s ≤ 1/1000 →
        drive_leg_loop posOpt sc tm nm (fuel + 1) r d s =
          drive_leg_loop posOpt sc tm nm fuel r d
            (exhaustedInsert ((posOpt (if tm > 0 then d / tm else 0)).getD sc)
              s)) ∧
      (∀ r : ℚ, r > 1/2 → limiting_time r s ≤ 1/1000 →
        max 0 (MAX_CYCLE_LIMIT - s.cycle_used) ≤ 1/1000 ∨
        max 0 (MAX_DRIVE_TIME - s.drive_clock) ≤ 1/1000 ∨
        max 0 (MAX_DUTY_WINDOW - s.window_clock) ≤ 1/1000 ∨
        max 0 (BREAK_REQUIRED_AFTER - s.since_break_clock) ≤ 1/1000 ∨
        max 0 ((FUEL_INTERVAL - s.miles_since_fuel) / AVG_SPEED) ≤ 1/1000) ∧
      ((FUEL_INTERVAL - s.miles_since_fuel) / AVG_SPEED ≤ 1/1000 →
        postDriveInsert pos s =
          { add_event .ON_DUTY (1/2) pos REMARK_FUEL (some STOP_FUEL) s with
            miles_since_fuel := 0 }) ∧
      (¬ (FUEL_INTERVAL - s.miles_since_fuel) / AVG_SPEED ≤ 1/1000 →
        MAX_CYCLE_LIMIT - s.cycle_used ≤ 1/1000 →
        postDriveInsert pos s =
          add_event .OFF_DUTY RESTART_34 pos REMARK_RESTART
            (some STOP_RESTART) s) ∧
      (¬ (FUEL_INTERVAL - s.miles_since_fuel) / AVG_SPEED ≤ 1/1000 →
        ¬ MAX_CYCLE_LIMIT - s.cycle_used ≤ 1/1000 →
        (MAX_DRIVE_TIME - s.drive_clock ≤ 1/1000 ∨
          MAX_DUTY_WINDOW - s.window_clock ≤ 1/1000) →
        postDriveInsert pos s =
          add_event .SLEEPER SLEEPER_REST pos REMARK_SLEEPER
            (some STOP_SLEEP) s) ∧
      (¬ (FUEL_INTERVAL - s.miles_since_fuel) / AVG_SPEED ≤ 1/1000 →
        ¬ MAX_CYCLE_LIMIT - s.cycle_used ≤ 1/1000 →
        ¬ (MAX_DRIVE_TIME - s.drive_clock ≤ 1/1000 ∨
          MAX_DUTY_WINDOW - s.window_clock ≤ 1/1000) →
        BREAK_REQUIRED_AFTER - s.since_break_clock ≤ 1/1000 →
        postDriveInsert pos s =
          add_event .OFF_DUTY MIN_BREAK pos REMARK_BREAK (some STOP_BREAK) s) ∧
      (¬ (FUEL_INTERVAL - s.miles_since_fuel) / AVG_SPEED ≤ 1/1000 →
        ¬ MAX_CYCLE_LIMIT - s.cycle_used ≤ 1/1000 →
        ¬ (MAX_DRIVE_TIME - s.drive_clock ≤ 1/1000 ∨
          MAX_DUTY_WINDOW - s.window_clock ≤ 1/1000) →
        ¬ BREAK_REQUIRED_AFTER - s.since_break_clock ≤ 1/1000 →
        postDriveInsert pos s = s) := by
  intro pos s
  refine ⟨?_, ?_, ?_, ?_, ?_, ?_, ?_, ?_, ?_, ?_, ?_⟩
  · intro h1
    unfold exhaustedInsert
    rw [if_pos h1]
  · intro h1 h2
    unfold exhaustedInsert
    rw [if_neg h1, if_pos h2]
  · intro h1 h2 h3
    unfold exhaustedInsert
    rw [if_neg h1, if_neg h2, if_pos h3]
  · intro h1 h2 h3 h4
    unfold exhaustedInsert
    rw [if_neg h1, if_neg h2, if_neg h3, if_pos h4]
  · intro posOpt sc tm nm fuel r d hr hl
    exact drive_leg_loop_exhausted posOpt sc tm nm fuel r d s hr hl
  · intro r hr hl
    exact exhausted_branch_fires r s hr hl
  · intro h1
    unfold postDriveInsert
    rw [if_pos h1]
  · intro h1 h2
    unfold postDriveInsert
    rw [if_neg h1, if_pos h2]
  · intro h1 h2 h3
    unfold postDriveInsert
    rw [if_neg h1, if_neg h2, if_pos h3]
  · intro h1 h2 h3 h4
    unfold postDriveInsert
    rw [if_neg h1, if_neg h2, if_neg h3, if_pos h4]
  · intro h1 h2 h3 h4
    unfold postDriveInsert
    rw [if_neg h1, if_neg h2, if_neg h3, if_neg h4]

theorem insert_priority_order_witness :
    exhaustedInsert CEX_CURR cycleFullState =
      add_event .OFF_DUTY RESTART_34 CEX_CURR REMARK_RESTART
        (some STOP_RESTART) cycleFullState :=
  (insert_priority_order CEX_CURR cycleFullState).1
    (by norm_num [MAX_CYCLE_LIMIT, cycleFullState])

/-- C5 (amended): in the summary of every successful trip computation,
`total_trip_time = round1(final current_time − 6.0)`, and
`num_days = max(1, int(final current_time / 24) + 1)` — computed from the
absolute final clock (which includes the 6.0 start offset), not from the
elapsed trip time as the original claim stated. -/
theorem summary_time_days :
    ∀ (interp : List Point → ℚ → Option String)
      (geocodeF : String → Option String)
      (routeF : String → String → Option RouteLeg)
      (a b c : String) (cyc : ℚ) (fuel : ℕ) (res : TripResult),
      calculate_schedule interp geocodeF routeF a b c cyc fuel =
        some (.ok res) →
      ∃ ca cb cc leg1 leg2 s snaps,
        run_trip interp ca cb cc leg1 leg2 cyc fuel = some (s, snaps) ∧
        res.summary.total_trip_time = round1 (s.current_time - 6) ∧
        res.summary.num_days = max 1 (pyInt (s.current_time / 24) + 1) := by
  intro interp geocodeF routeF a b c cyc fuel res h
  obtain ⟨ca, cb, cc, leg1, leg2, s, snaps, _, _, _, _, _, hrt, hres⟩ :=
    calculate_schedule_ok_inv interp geocodeF routeF a b c cyc fuel res h
  subst hres
  exact ⟨ca, cb, cc, leg1, leg2, s, snaps, hrt, rfl, rfl⟩

set_option maxRecDepth 100000 in
theorem summary_time_days_witness :
    ∃ ca cb cc leg1 leg2 s snaps,
      run_trip noInterp ca cb cc leg1 leg2 0 5 = some (s, snaps) ∧
      (build_result leg0 leg0 trivFinalState).summary.total_trip_time =
        round1 (s.current_time - 6) ∧
      (build_result leg0 leg0 trivFinalState).summary.num_days =
        max 1 (pyInt (s.current_time / 24) + 1) :=
  summary_time_days noInterp geoOK routeTriv CEX_CURR CEX_PICK CEX_DROP 0 5
    (build_result leg0 leg0 trivFinalState) (by with_unfolding_all rfl)

set_option maxRecDepth 1000000 in
/-- C5 counterexample: a successful trip (legs of 55 and 555 miles, zero
seed) ends at `current_time = 1313/44 ≈ 29.84`, the produced
`num_days` is `max(1, int(29.84 / 24) + 1) = 2`, while the claim's formula
`max(1, floor(total_elapsed / 24) + 1)` with `total_elapsed =
current_time − 6.0 ≈ 23.84` yields 1. -/
theorem num_days_counterexample :
    (run_trip noInterp CEX_CURR CEX_PICK CEX_DROP leg55 leg555 0 100).map
      (fun p => (p.1.current_time,
        (build_summary leg55 leg555 p.1).num_days)) = some (1313/44, 2) ∧
    max 1 (pyInt ((1313/44 - 6) / 24) + 1) = 1 ∧
    (2:ℤ) ≠ max 1 (pyInt ((1313/44 - 6) / 24) + 1) := by
  refine ⟨by with_unfolding_all rfl, by with_unfolding_all rfl, ?_⟩
  rw [show max 1 (pyInt ((1313/44 - 6) / 24) + 1) = 1 from by
    with_unfolding_all rfl]
  decide

/-- C6: for every non-empty polyline, interpolation at fraction 0 returns
the first point and at fraction 1 the last point; the empty polyline gives
the failure signal `none`; a single-point polyline gives that point for any
fraction.  Stated over any segment-length function that is nonnegative and
definite, as the source's Euclidean length is. -/
theorem interpolate_endpoints :
    ∀ (d : Point → Point → ℚ),
      (∀ p q, 0 ≤ d p q) → (∀ p q, d p q = 0 → p = q) →
      (∀ f : ℚ, interpolate_along_route d [] f = none) ∧
      (∀ (p : Point) (f : ℚ), interpolate_along_route d [p] f = some p) ∧
      (∀ coords : List Point,
        interpolate_along_route d coords 0 = coords.head?) ∧
      (∀ coords : List Point,
        interpolate_along_route d coords 1 = coords.getLast?) := by
  intro d hnn hdef
  exact ⟨fun _ => rfl, fun _ _ => rfl, interpolate_zero d hnn,
    interpolate_one d hnn hdef⟩

/-- The squared planar distance: a nonnegative, definite segment-length
function used to instantiate the interpolation theorem. -/
def sqLen : Point → Point → ℚ := fun p q => (q.1 - p.1)^2 + (q.2 - p.2)^2

lemma sqLen_nonneg : ∀ p q : Point, 0 ≤ sqLen p q := by
  intro p q
  unfold sqLen
  positivity

lemma sqLen_def : ∀ p q : Point, sqLen p q = 0 → p = q := by
  intro p q h
  unfold sqLen at h
  have ha : (q.1 - p.1)^2 = 0 := by
    nlinarith [sq_nonneg (q.1 - p.1), sq_nonneg (q.2 - p.2)]
  have hb : (q.2 - p.2)^2 = 0 := by
    nlinarith [sq_nonneg (q.1 - p.1), sq_nonneg (q.2 - p.2)]
  have e1 : q.1 - p.1 = 0 := by
    exact sq_eq_zero_iff.mp ha
  have e2 : q.2 - p.2 = 0 := by
    exact sq_eq_zero_iff.mp hb
  exact Prod.ext (by linarith) (by linarith)

theorem interpolate_endpoints_witness :
    interpolate_along_route sqLen [(0, 0), (2, 1)] 0 = some (0, 0) ∧
    interpolate_along_route sqLen [(0, 0), (2, 1)] 1 = some (2, 1) ∧
    interpolate_along_route sqLen [] (1/3) = none ∧
    interpolate_along_route sqLen [(5, 7)] (1/3) = some (5, 7) := by
  obtain ⟨h1, h2, h3, h4⟩ := interpolate_endpoints sqLen sqLen_nonneg sqLen_def
  refine ⟨?_, ?_, h1 (1/3), h2 (5, 7) (1/3)⟩
  · rw [h3 [(0, 0), (2, 1)]]
    rfl
  · rw [h4 [(0, 0), (2, 1)]]
    rfl

/-- C7: if any location fails to geocode or any route leg fails to fetch,
`calculate_schedule` returns only an error object, never a partial result;
in particular when the pickup name fails to geocode (with the current
location resolving) the result is exactly the pickup error message. -/
theorem error_replaces_result :
    ∀ (interp : List Point → ℚ → Option String)
      (geocodeF : String → Option String)
      (routeF : String → String → Option RouteLeg)
      (a b c : String) (cyc : ℚ) (fuel : ℕ),
      (geocodeF a = none ∨ geocodeF b = none ∨ geocodeF c = none ∨
        (∃ ca cb cc, geocodeF a = some ca ∧ geocodeF b = some cb ∧
          geocodeF c = some cc ∧
          (routeF ca cb = none ∨
            (∃ leg1, routeF ca cb = some leg1 ∧ routeF cb cc = none)))) →
      (∃ e, calculate_schedule interp geocodeF routeF a b c cyc fuel =
        some (.error e)) ∧
      (∀ ca, geocodeF a = some ca → geocodeF b = none →
        calculate_schedule interp geocodeF routeF a b c cyc fuel =
          some (.error (ERR_PICKUP ++ b))) := by
  intro interp geocodeF routeF a b c cyc fuel hfail
  constructor
  · rcases hga : geocodeF a with _ | ca
    · exact ⟨ERR_CURRENT ++ a, by simp [calculate_schedule, hga]⟩
    rcases hgb : geocodeF b with _ | cb
    · exact ⟨ERR_PICKUP ++ b, by simp [calculate_schedule, hga, hgb]⟩
    rcases hgc : geocodeF c with _ | cc
    · exact ⟨ERR_DROPOFF ++ c, by simp [calculate_schedule, hga, hgb, hgc]⟩
    rcases hr1 : routeF ca cb with _ | leg1
    · exact ⟨ERR_LEG1, by simp [calculate_schedule, hga, hgb, hgc, hr1]⟩
    rcases hr2 : routeF cb cc with _ | leg2
    · exact ⟨ERR_LEG2, by simp [calculate_schedule, hga, hgb, hgc, hr1, hr2]⟩
    exfalso
    rcases hfail with h | h | h | ⟨ca', cb', cc', ha', hb', hc', h⟩
    · rw [hga] at h
      exact Option.noConfusion h
    · rw [hgb] at h
      exact Option.noConfusion h
    · rw [hgc] at h
      exact Option.noConfusion h
    · rw [hga, Option.some.injEq] at ha'
      rw [hgb, Option.some.injEq] at hb'
      rw [hgc, Option.some.injEq] at hc'
      subst ha'
      subst hb'
      subst hc'
      rcases h with h | ⟨l1, hl1, h⟩
      · rw [hr1] at h
        exact Option.noConfusion h
      · rw [hr2] at h
        exact Option.noConfusion h
  · intro ca hga hgb
    simp [calculate_schedule, hga, hgb]

theorem error_replaces_result_witness :
    calculate_schedule noInterp geoPartial routeTriv CEX_CURR CEX_PICK
      CEX_DROP 0 5 = some (.error (ERR_PICKUP ++ CEX_PICK)) :=
  (error_replaces_result noInterp geoPartial routeTriv CEX_CURR CEX_PICK
    CEX_DROP 0 5 (Or.inr (Or.inl (by decide)))).2 CEX_CURR (by decide)
    (by decide)

set_option maxRecDepth 1000000 in
/-- C10: `miles_since_fuel` is never modified by `add_event` for any duty
status; the rest/fuel inserts either leave it unchanged or reset it to 0
exactly when they append a fuel stop; it increases by exactly the miles
driven after each DRIVING event; the loading event between the legs
preserves it; and carried mileage across the leg boundary can trigger a
fuel stop (concretely: two 600-mile legs produce exactly one fuel stop). -/
theorem miles_since_fuel_frame :
    (∀ (st : DutyStatus) (d : ℚ) (l r : String) (ty : Option String)
      (s : SimState),
      (add_event st d l r ty s).miles_since_fuel = s.miles_since_fuel) ∧
    (∀ (pos : String) (s : SimState),
      (exhaustedInsert pos s).miles_since_fuel = s.miles_since_fuel ∨
      ((exhaustedInsert pos s).miles_since_fuel = 0 ∧
        (exhaustedInsert pos s).stops = s.stops ++
          [⟨pos, STOP_FUEL, REMARK_FUEL, round3 s.current_time,
            round3 (1/2)⟩])) ∧
    (∀ (pos : String) (s : SimState),
      (postDriveInsert pos s).miles_since_fuel = s.miles_since_fuel ∨
      ((postDriveInsert pos s).miles_since_fuel = 0 ∧
        (postDriveInsert pos s).stops = s.stops ++
          [⟨pos, STOP_FUEL, REMARK_FUEL, round3 s.current_time,
            round3 (1/2)⟩])) ∧
    (∀ (nm : String) (r : ℚ) (s : SimState),
      (afterDrive nm r s).miles_since_fuel =
        s.miles_since_fuel + milesDriven r s) ∧
    (∀ (pick : String) (s : SimState),
      (add_event .ON_DUTY LOAD_UNLOAD_TIME pick REMARK_LOADING
        (some STOP_PICKUP) s).miles_since_fuel = s.miles_since_fuel) ∧
    ((run_trip noInterp CEX_CURR CEX_PICK CEX_DROP leg600 leg600 0 10).map
      (fun p => (p.1.stops.filter (fun st => st.type == STOP_FUEL)).length) =
      some 1) := by
  have hmax : max (0:ℚ) (1/2) = 1/2 := max_eq_right (by norm_num)
  refine ⟨fun st d l r ty s => add_event_msf st d l r ty s, ?_, ?_,
    afterDrive_msf, fun pick s => add_event_msf _ _ _ _ _ _, ?_⟩
  · intro pos s
    unfold exhaustedInsert
    split_ifs with h1 h2 h3 h4
    · exact Or.inl (add_event_msf _ _ _ _ _ _)
    · exact Or.inl (add_event_msf _ _ _ _ _ _)
    · exact Or.inl (add_event_msf _ _ _ _ _ _)
    · refine Or.inr ⟨rfl, ?_⟩
      show (add_event .ON_DUTY (1/2) pos REMARK_FUEL (some STOP_FUEL)
        s).stops = _
      rw [add_event_stops_some, hmax]
    · exact Or.inl rfl
  · intro pos s
    unfold postDriveInsert
    split_ifs with h1 h2 h3 h4
    · refine Or.inr ⟨rfl, ?_⟩
      show (add_event .ON_DUTY (1/2) pos REMARK_FUEL (some STOP_FUEL)
        s).stops = _
      rw [add_event_stops_some, hmax]
    · exact Or.inl (add_event_msf _ _ _ _ _ _)
    · exact Or.inl (add_event_msf _ _ _ _ _ _)
    · exact Or.inl (add_event_msf _ _ _ _ _ _)
    · exact Or.inl rfl
  · with_unfolding_all rfl

theorem miles_since_fuel_frame_witness :
    (add_event .ON_DUTY LOAD_UNLOAD_TIME CEX_PICK REMARK_LOADING
      (some STOP_PICKUP) w1AfterLeg).miles_since_fuel =
      w1AfterLeg.miles_since_fuel :=
  miles_since_fuel_frame.2.2.2.2.1 CEX_PICK w1AfterLeg

end Atlas
